import Mathlib

/-!
# BLE4 advertising controller (ruuvi_nrf5_sdk15_communication_ble4_advertising.c)

A shallow embedding of the advertising module.  The module-level statics of the
C file become the fields of `State`; every function of the file becomes a Lean
function from a state (and the results of the stack calls it issues) to a
driver status and a new state.  The SoftDevice is outside the module: each call
the module issues is recorded in `State.calls` with its arguments (latest
first), and the value the stack returns is an argument of the embedded function.
The status translation and the advertising-data encoder are library functions
that are not part of the file; the embedded functions take them in a `Platform`.
-/

namespace Ble4Adv

/-! ## Constants of the headers the file includes -/

/-- Size of one advertising-data buffer, `BLE_GAP_ADV_SET_DATA_SIZE_MAX` of ble_gap.h. -/
def BLE_GAP_ADV_SET_DATA_SIZE_MAX : Nat := 31
/-- Initial value of an advertising handle, `BLE_GAP_ADV_SET_HANDLE_NOT_SET` of ble_gap.h. -/
def BLE_GAP_ADV_SET_HANDLE_NOT_SET : Nat := 0xFF
/-- Flag `BLE_GAP_ADV_FLAG_BR_EDR_NOT_SUPPORTED` of ble_gap.h. -/
def BLE_GAP_ADV_FLAG_BR_EDR_NOT_SUPPORTED : Nat := 0x04
/-- Filter policy `BLE_GAP_ADV_FP_ANY` of ble_gap.h. -/
def BLE_GAP_ADV_FP_ANY : Nat := 0
/-- Role `BLE_GAP_TX_POWER_ROLE_ADV` of ble_gap.h. -/
def BLE_GAP_TX_POWER_ROLE_ADV : Nat := 1
/-- Advertising type of ble_gap.h. -/
def BLE_GAP_ADV_TYPE_CONNECTABLE_SCANNABLE_UNDIRECTED : Nat := 0x01
/-- Advertising type of ble_gap.h. -/
def BLE_GAP_ADV_TYPE_NONCONNECTABLE_SCANNABLE_UNDIRECTED : Nat := 0x04
/-- Advertising type of ble_gap.h. -/
def BLE_GAP_ADV_TYPE_NONCONNECTABLE_NONSCANNABLE_UNDIRECTED : Nat := 0x05
/-- Advertising type of ble_gap.h. -/
def BLE_GAP_ADV_TYPE_EXTENDED_CONNECTABLE_NONSCANNABLE_UNDIRECTED : Nat := 0x06
/-- Name type `BLE_ADVDATA_NO_NAME` of ble_advdata.h. -/
def BLE_ADVDATA_NO_NAME : Nat := 0
/-- Name type `BLE_ADVDATA_FULL_NAME` of ble_advdata.h. -/
def BLE_ADVDATA_FULL_NAME : Nat := 2
/-- Service identifier `BLE_UUID_NUS_SERVICE` of ble_nus.h. -/
def BLE_UUID_NUS_SERVICE : Nat := 0x0001
/-- Identifier type `BLE_UUID_TYPE_VENDOR_BEGIN` of ble_types.h. -/
def BLE_UUID_TYPE_VENDOR_BEGIN : Nat := 0x02
/-- Connection configuration tag `RUUVI_NRF5_SDK15_BLE4_STACK_CONN_TAG` of the stack header. -/
def RUUVI_NRF5_SDK15_BLE4_STACK_CONN_TAG : Nat := 1
/-- Radio user tag `RUUVI_INTERFACE_COMMUNICATION_RADIO_ADVERTISEMENT`. -/
def RUUVI_INTERFACE_COMMUNICATION_RADIO_ADVERTISEMENT : Nat := 1
/-- Time resolution `UNIT_0_625_MS` of app_util.h, in microseconds. -/
def UNIT_0_625_MS : Nat := 625

/-- The SoftDevice status `NRF_SUCCESS`. -/
def NRF_SUCCESS : Nat := 0
/-- The SoftDevice status `NRF_ERROR_DATA_SIZE`. -/
def NRF_ERROR_DATA_SIZE : Nat := 12
/-- The SoftDevice status `NRF_ERROR_INVALID_PARAM`. -/
def NRF_ERROR_INVALID_PARAM : Nat := 7

/-- Driver status `RUUVI_DRIVER_SUCCESS` of ruuvi_driver_error.h. -/
def RUUVI_DRIVER_SUCCESS : Nat := 0
/-- Driver status bit of ruuvi_driver_error.h. -/
def RUUVI_DRIVER_ERROR_INVALID_PARAM : Nat := 2 ^ 4
/-- Driver status bit of ruuvi_driver_error.h. -/
def RUUVI_DRIVER_ERROR_INVALID_STATE : Nat := 2 ^ 5
/-- Driver status bit of ruuvi_driver_error.h. -/
def RUUVI_DRIVER_ERROR_INVALID_LENGTH : Nat := 2 ^ 6
/-- Driver status bit of ruuvi_driver_error.h. -/
def RUUVI_DRIVER_ERROR_NULL : Nat := 2 ^ 11
/-- Driver status bit of ruuvi_driver_error.h. -/
def RUUVI_DRIVER_ERROR_NOT_IMPLEMENTED : Nat := 2 ^ 16

/-- The `#define DEFAULT_ADV_INTERVAL_MS 1010` of the file. -/
def DEFAULT_ADV_INTERVAL_MS : Nat := 1010
/-- The `#define MIN_ADV_INTERVAL_MS 100` of the file. -/
def MIN_ADV_INTERVAL_MS : Nat := 100
/-- The `#define MAX_ADV_INTERVAL_MS 10000` of the file. -/
def MAX_ADV_INTERVAL_MS : Nat := 10000

/-- Modelled from the spec: the macro `MSEC_TO_UNITS(TIME, RESOLUTION)` of
app_util.h is not among the sources; it "converts to the stack's native time
unit" as `(((TIME) * 1000) / (RESOLUTION))`, evaluated on `uint32_t` operands. -/
def MSEC_TO_UNITS (time resolution : Nat) : Nat :=
  ((time * 1000) % 2 ^ 32) / resolution

/-! ## Data model -/

/-- The four static payload buffers; a pointer into one of them is its tag. -/
inductive Slot where
  | m_advertisement0
  | m_advertisement1
  | m_scan0
  | m_scan1
  deriving DecidableEq, Repr

/-- The SoftDevice type `ble_data_t`: a pointer (`none` is NULL) and a length. -/
structure ble_data_t where
  p_data : Option Slot
  len : Nat
  deriving DecidableEq, Repr

/-- The SoftDevice type `ble_gap_adv_data_t`. -/
structure ble_gap_adv_data_t where
  adv_data : ble_data_t
  scan_rsp_data : ble_data_t
  deriving DecidableEq, Repr

/-- The fields of `ble_gap_adv_params_t` the file assigns; every other field is
only ever written by `memset(.., 0, ..)` and stays zero. `p_peer_addr` is
`none` for NULL. -/
structure ble_gap_adv_params_t where
  type : Nat
  p_peer_addr : Option Nat
  interval : Nat
  duration : Nat
  filter_policy : Nat
  deriving DecidableEq, Repr

/-- The type `ruuvi_platform_ble4_advertisement_state_t` of the file; `channel`
is the address of the bound channel, 0 for NULL. -/
structure ruuvi_platform_ble4_advertisement_state_t where
  advertisement_interval_ms : Nat
  advertisement_power_dbm : Int
  manufacturer_id : Nat
  channel : Nat
  deriving DecidableEq, Repr

/-- The functions of this file that are installed into a channel. -/
inductive FnPtr where
  | advertising_init
  | advertising_uninit
  | advertising_send
  | advertising_receive
  deriving DecidableEq, Repr

/-- The function-pointer table `ruuvi_interface_communication_t`; `none` is a
NULL pointer, `on_evt` holds the identity of the registered listener. -/
structure ruuvi_interface_communication_t where
  init : Option FnPtr
  uninit : Option FnPtr
  send : Option FnPtr
  read : Option FnPtr
  on_evt : Option Nat
  deriving DecidableEq, Repr

/-- The type `ruuvi_interface_communication_message_t`: the payload array and
its length field. -/
structure ruuvi_interface_communication_message_t where
  data : List Nat
  data_length : Nat
  deriving DecidableEq, Repr

/-- The encoder input type `ble_uuid_t`. -/
structure ble_uuid_t where
  uuid : Nat
  type : Nat
  deriving DecidableEq, Repr

/-- The encoder input type `ble_advdata_manuf_data_t`. -/
structure ble_advdata_manuf_data_t where
  company_identifier : Nat
  size : Nat
  p_data : List Nat
  deriving DecidableEq, Repr

/-- The fields of the encoder input `ble_advdata_t` the file assigns; the
others stay zero from the `= {0}` initialiser. -/
structure ble_advdata_t where
  name_type : Nat
  flags : Nat
  p_manuf_specific_data : Option ble_advdata_manuf_data_t
  uuids_complete : List ble_uuid_t
  deriving DecidableEq, Repr

/-- A call issued to a collaborator outside the file, with its arguments. -/
inductive StackCall where
  | sd_ble_gap_adv_stop (handle : Nat)
  | sd_ble_gap_adv_set_configure (handle : Nat) (p_adv_data : Option ble_gap_adv_data_t)
      (p_adv_params : Option ble_gap_adv_params_t)
  | sd_ble_gap_adv_start (handle : Nat) (conn_cfg_tag : Nat)
  | sd_ble_gap_tx_power_set (role : Nat) (handle : Nat) (tx_power : Int)
  | sd_ble_gap_device_name_set (name : List Nat) (len : Nat)
  | radio_init (user : Nat)
  | radio_uninit (user : Nat)
  | on_evt (listener : Nat)
  deriving DecidableEq, Repr

/-- What `sd_ble_gap_adv_set_configure` gives back: its status and the value it
leaves in the handle it was passed by address. -/
structure ConfigureResult where
  err : Nat
  handle : Nat
  deriving DecidableEq, Repr

/-- What `ble_advdata_encode` gives back: its status, the content of the buffer
it was given and the value it leaves in `*p_len`. -/
structure EncodeResult where
  err : Nat
  buf : List Nat
  len : Nat
  deriving DecidableEq, Repr

/-- The two library functions the file calls that compute a value: the status
translation `ruuvi_nrf5_sdk15_to_ruuvi_error` and the advertising-data encoder
`ble_advdata_encode` (device name held by the stack, structure to encode,
buffer content, capacity in `*p_len`). -/
structure Platform where
  ruuvi_nrf5_sdk15_to_ruuvi_error : Nat → Nat
  ble_advdata_encode : List Nat → ble_advdata_t → List Nat → Nat → EncodeResult

/-- The statics of the file, the channel objects it is handed by address, the
device name held by the stack and the log of issued calls (latest first). -/
structure State where
  m_advertisement0 : List Nat
  m_adv0_len : Nat
  m_advertisement1 : List Nat
  m_adv1_len : Nat
  m_scan0 : List Nat
  m_scan0_len : Nat
  m_scan1 : List Nat
  m_scan1_len : Nat
  advertisement_odd : Bool
  m_adv_data : ble_gap_adv_data_t
  m_adv_params : ble_gap_adv_params_t
  m_adv_handle : Nat
  m_advertisement_is_init : Bool
  m_advertising : Bool
  m_adv_state : ruuvi_platform_ble4_advertisement_state_t
  channels : Nat → ruuvi_interface_communication_t
  gap_device_name : List Nat
  calls : List StackCall

/-- A zero-filled payload buffer. -/
def zero_buffer : List Nat := List.replicate BLE_GAP_ADV_SET_DATA_SIZE_MAX 0

/-- The value `memset(&m_adv_params, 0, ..)` leaves. -/
def zero_adv_params : ble_gap_adv_params_t :=
  { type := 0, p_peer_addr := none, interval := 0, duration := 0, filter_policy := 0 }

/-- The value `memset(&m_adv_data, 0, ..)` leaves. -/
def zero_adv_data : ble_gap_adv_data_t :=
  { adv_data := { p_data := none, len := 0 }, scan_rsp_data := { p_data := none, len := 0 } }

/-- The value `memset(&m_adv_state, 0, ..)` leaves. -/
def zero_adv_state : ruuvi_platform_ble4_advertisement_state_t :=
  { advertisement_interval_ms := 0, advertisement_power_dbm := 0, manufacturer_id := 0,
    channel := 0 }

/-- The value `memset(channel, 0, ..)` leaves. -/
def zero_channel : ruuvi_interface_communication_t :=
  { init := none, uninit := none, send := none, read := none, on_evt := none }

/-- The statics as the C start-up code leaves them. -/
def initial_state : State :=
  { m_advertisement0 := zero_buffer, m_adv0_len := 0
    m_advertisement1 := zero_buffer, m_adv1_len := 0
    m_scan0 := zero_buffer, m_scan0_len := 0
    m_scan1 := zero_buffer, m_scan1_len := 0
    advertisement_odd := false
    m_adv_data := zero_adv_data
    m_adv_params := zero_adv_params
    m_adv_handle := BLE_GAP_ADV_SET_HANDLE_NOT_SET
    m_advertisement_is_init := false
    m_advertising := false
    m_adv_state := zero_adv_state
    channels := fun _ => zero_channel
    gap_device_name := []
    calls := [] }

/-- The bytes of a payload buffer. -/
def State.buffer (s : State) : Slot → List Nat
  | Slot.m_advertisement0 => s.m_advertisement0
  | Slot.m_advertisement1 => s.m_advertisement1
  | Slot.m_scan0 => s.m_scan0
  | Slot.m_scan1 => s.m_scan1

/-- The length variable that goes with a payload buffer. -/
def State.buffer_len (s : State) : Slot → Nat
  | Slot.m_advertisement0 => s.m_adv0_len
  | Slot.m_advertisement1 => s.m_adv1_len
  | Slot.m_scan0 => s.m_scan0_len
  | Slot.m_scan1 => s.m_scan1_len

/-- A write of a whole payload buffer and of its length variable. -/
def State.store (s : State) (p : Slot) (bytes : List Nat) (len : Nat) : State :=
  match p with
  | Slot.m_advertisement0 => { s with m_advertisement0 := bytes, m_adv0_len := len }
  | Slot.m_advertisement1 => { s with m_advertisement1 := bytes, m_adv1_len := len }
  | Slot.m_scan0 => { s with m_scan0 := bytes, m_scan0_len := len }
  | Slot.m_scan1 => { s with m_scan1 := bytes, m_scan1_len := len }

/-- One more call in the log. -/
def State.issue (s : State) (c : StackCall) : State :=
  { s with calls := c :: s.calls }

/-! ## The functions of the file -/

/-- The two length-and-buffer selections of `data_set`: the advertisement
buffer chosen by `advertisement_odd`. -/
def select_advertisement (advertisement_odd : Bool) : Slot :=
  if advertisement_odd then Slot.m_advertisement0 else Slot.m_advertisement1

/-- The scan-response buffer chosen by `advertisement_odd` in `data_set`. -/
def select_scan (advertisement_odd : Bool) : Slot :=
  if advertisement_odd then Slot.m_scan0 else Slot.m_scan1

/-- The static `update_settings`. `stop_err`, `cfg` and `start_err` are what
the stack returns from the stop, configure and start calls (the first and the
last are only issued while advertising). -/
def update_settings (P : Platform) (s : State) (stop_err : Nat) (cfg : ConfigureResult)
    (start_err : Nat) : Nat × State :=
  if !s.m_advertisement_is_init then (RUUVI_DRIVER_ERROR_INVALID_STATE, s) else
  let err_code := NRF_SUCCESS
  -- Stop advertising for setting update
  let (err_code, s) :=
    if s.m_advertising then
      (err_code ||| stop_err, s.issue (StackCall.sd_ble_gap_adv_stop s.m_adv_handle))
    else (err_code, s)
  let s := { s.issue (StackCall.sd_ble_gap_adv_set_configure s.m_adv_handle
              (some s.m_adv_data) (some s.m_adv_params)) with m_adv_handle := cfg.handle }
  let err_code := err_code ||| cfg.err
  let (err_code, s) :=
    if s.m_advertising then
      (start_err, s.issue (StackCall.sd_ble_gap_adv_start s.m_adv_handle
                    RUUVI_NRF5_SDK15_BLE4_STACK_CONN_TAG))
    else (err_code, s)
  (P.ruuvi_nrf5_sdk15_to_ruuvi_error err_code, s)

/-- Event tag `RUUVI_INTERFACE_COMMUNICATION_RADIO_BEFORE`. -/
def RUUVI_INTERFACE_COMMUNICATION_RADIO_BEFORE : Nat := 0
/-- Event tag `RUUVI_INTERFACE_COMMUNICATION_RADIO_AFTER`. -/
def RUUVI_INTERFACE_COMMUNICATION_RADIO_AFTER : Nat := 1

/-- The function `ruuvi_interface_communication_ble4_advertising_activity_handler`. -/
def ruuvi_interface_communication_ble4_advertising_activity_handler (s : State)
    (evt : Nat) : State :=
  if evt = RUUVI_INTERFACE_COMMUNICATION_RADIO_BEFORE then s else
  if evt = RUUVI_INTERFACE_COMMUNICATION_RADIO_AFTER then
    match (s.channels s.m_adv_state.channel).on_evt with
    | some listener => s.issue (StackCall.on_evt listener)
    | none => s
  else s

/-- The function `ruuvi_interface_communication_ble4_advertising_tx_interval_set`. -/
def ruuvi_interface_communication_ble4_advertising_tx_interval_set (P : Platform) (s : State)
    (ms : Nat) (stop_err : Nat) (cfg : ConfigureResult) (start_err : Nat) : Nat × State :=
  if MIN_ADV_INTERVAL_MS > ms ∨ MAX_ADV_INTERVAL_MS < ms then
    (RUUVI_DRIVER_ERROR_INVALID_PARAM, s)
  else
  let s := { s with m_adv_state := { s.m_adv_state with advertisement_interval_ms := ms } }
  let s := { s with m_adv_params := { s.m_adv_params with
              interval := MSEC_TO_UNITS s.m_adv_state.advertisement_interval_ms UNIT_0_625_MS } }
  update_settings P s stop_err cfg start_err

/-- The function `ruuvi_interface_communication_ble4_advertising_tx_interval_get`:
the status and the value written through `ms`. -/
def ruuvi_interface_communication_ble4_advertising_tx_interval_get (s : State) : Nat × Nat :=
  (RUUVI_DRIVER_SUCCESS, s.m_adv_state.advertisement_interval_ms)

/-- The function `ruuvi_interface_communication_ble4_advertising_manufacturer_id_set`. -/
def ruuvi_interface_communication_ble4_advertising_manufacturer_id_set (s : State)
    (id : Nat) : Nat × State :=
  (RUUVI_DRIVER_SUCCESS, { s with m_adv_state := { s.m_adv_state with manufacturer_id := id } })

/-- The function `ruuvi_interface_communication_ble4_advertising_init`; `channel`
is the address of the caller's channel object and `radio_err` the status of
`ruuvi_interface_communication_radio_init`. -/
def ruuvi_interface_communication_ble4_advertising_init (P : Platform) (s : State)
    (channel : Nat) (radio_err : Nat) : Nat × State :=
  let err_code := RUUVI_DRIVER_SUCCESS
  let (err_code, s) :=
    if !s.m_advertisement_is_init then
      (err_code ||| radio_err,
        s.issue (StackCall.radio_init RUUVI_INTERFACE_COMMUNICATION_RADIO_ADVERTISEMENT))
    else (err_code, s)
  if !s.m_advertisement_is_init ∧ RUUVI_DRIVER_SUCCESS ≠ err_code then (err_code, s) else
  -- Initialize advertising parameters (used when starting advertising).
  let params : ble_gap_adv_params_t :=
    { zero_adv_params with
      filter_policy := BLE_GAP_ADV_FP_ANY
      duration := 0
      type := BLE_GAP_ADV_TYPE_NONCONNECTABLE_NONSCANNABLE_UNDIRECTED
      p_peer_addr := none
      interval := MSEC_TO_UNITS DEFAULT_ADV_INTERVAL_MS UNIT_0_625_MS }
  let table : ruuvi_interface_communication_t :=
    { s.channels channel with
      init := some FnPtr.advertising_init
      uninit := some FnPtr.advertising_uninit
      send := some FnPtr.advertising_send
      read := some FnPtr.advertising_receive
      on_evt := none }
  let s := { s with
    m_adv_params := params
    m_advertisement_is_init := true
    m_adv_state := { s.m_adv_state with
      advertisement_interval_ms := DEFAULT_ADV_INTERVAL_MS, channel := channel }
    channels := fun a => if a = channel then table else s.channels a
    m_adv_data := zero_adv_data
    m_advertisement0 := zero_buffer
    m_advertisement1 := zero_buffer
    m_adv0_len := 0
    m_adv1_len := 0 }
  (P.ruuvi_nrf5_sdk15_to_ruuvi_error err_code, s)

/-- The function `ruuvi_interface_communication_ble4_advertising_uninit`;
`stop_err` is what the stop call returns (the code drops it) and `radio_err`
the status of `ruuvi_interface_communication_radio_uninit`. -/
def ruuvi_interface_communication_ble4_advertising_uninit (s : State) (channel : Nat)
    (_stop_err : Nat) (radio_err : Nat) : Nat × State :=
  let err_code := RUUVI_DRIVER_SUCCESS
  -- Stop advertising
  let s :=
    if s.m_advertising = true then
      { s.issue (StackCall.sd_ble_gap_adv_stop s.m_adv_handle) with m_advertising := false }
    else s
  -- Clear advertisement parameters, release radio
  let s := { s with m_adv_params := zero_adv_params }
  let s := s.issue (StackCall.radio_uninit RUUVI_INTERFACE_COMMUNICATION_RADIO_ADVERTISEMENT)
  let err_code := err_code ||| radio_err
  -- Clear function pointers
  let s := { s with
    m_advertisement_is_init := false
    channels := fun a => if a = channel then zero_channel else s.channels a
    m_adv_state := zero_adv_state }
  (err_code, s)

/-- The function `ruuvi_interface_communication_ble4_advertising_data_set`;
`data` is `none` for a NULL pointer, `cfg` is what the configure call returns. -/
def ruuvi_interface_communication_ble4_advertising_data_set (P : Platform) (s : State)
    (data : Option (List Nat)) (data_length : Nat) (cfg : ConfigureResult) : Nat × State :=
  match data with
  | none => (RUUVI_DRIVER_ERROR_NULL, s)
  | some data =>
  if 24 < data_length then (RUUVI_DRIVER_ERROR_INVALID_LENGTH, s) else
  -- Build specification for data into ble_advdata_t advdata
  let flags := BLE_GAP_ADV_FLAG_BR_EDR_NOT_SUPPORTED
  let err_code := NRF_SUCCESS
  -- Preserve const of data passed to us.
  let manufacturer_data := data.take data_length
  let manuf_specific_data : ble_advdata_manuf_data_t :=
    { p_data := manufacturer_data, size := data_length
      company_identifier := s.m_adv_state.manufacturer_id }
  -- If manufacturer data is not set, assign "UNKNOWN"
  let manuf_specific_data :=
    if 0 = s.m_adv_state.manufacturer_id then
      { manuf_specific_data with company_identifier := 0xFFFF }
    else manuf_specific_data
  let advdata : ble_advdata_t :=
    { name_type := BLE_ADVDATA_NO_NAME, uuids_complete := []
      flags := flags, p_manuf_specific_data := some manuf_specific_data }
  -- Same buffer must not be passed to the SD on data update.
  let p_advertisement := select_advertisement s.advertisement_odd
  let p_scan := select_scan s.advertisement_odd
  let s := { s with
    m_adv0_len := BLE_GAP_ADV_SET_DATA_SIZE_MAX
    m_adv1_len := BLE_GAP_ADV_SET_DATA_SIZE_MAX
    m_scan0_len := BLE_GAP_ADV_SET_DATA_SIZE_MAX
    m_scan1_len := BLE_GAP_ADV_SET_DATA_SIZE_MAX
    advertisement_odd := !s.advertisement_odd }
  -- Encode data
  let enc := P.ble_advdata_encode s.gap_device_name advdata (s.buffer p_advertisement)
    (s.buffer_len p_advertisement)
  let err_code := err_code ||| enc.err
  let s := s.store p_advertisement enc.buf enc.len
  let s := { s with m_adv_data :=
    { adv_data := { p_data := some p_advertisement, len := s.buffer_len p_advertisement }
      scan_rsp_data := { p_data := some p_scan, len := s.buffer_len p_scan } } }
  let s := { s.issue (StackCall.sd_ble_gap_adv_set_configure s.m_adv_handle
              (some s.m_adv_data) none) with m_adv_handle := cfg.handle }
  let err_code := err_code ||| cfg.err
  (P.ruuvi_nrf5_sdk15_to_ruuvi_error err_code, s)

/-- The function `ruuvi_interface_communication_ble4_advertising_send`;
`message` is `none` for a NULL pointer. -/
def ruuvi_interface_communication_ble4_advertising_send (P : Platform) (s : State)
    (message : Option ruuvi_interface_communication_message_t) (cfg : ConfigureResult) :
    Nat × State :=
  match message with
  | none => (RUUVI_DRIVER_ERROR_NULL, s)
  | some message =>
  -- Advertising might be stopped by external event, such as GATT connection.
  if false = s.m_advertising then (RUUVI_DRIVER_ERROR_INVALID_STATE, s) else
  ruuvi_interface_communication_ble4_advertising_data_set P s (some message.data)
    message.data_length cfg

/-- The function `ruuvi_interface_communication_ble4_advertising_receive`. -/
def ruuvi_interface_communication_ble4_advertising_receive (s : State) : Nat × State :=
  (RUUVI_DRIVER_ERROR_NOT_IMPLEMENTED, s)

/-- The local `tx_power` of `tx_power_set` after the chain of comparisons,
`none` for the final `else` that returns. -/
def tx_power_ladder (dbm : Int) : Option Int :=
  if dbm ≤ -40 then some (-40)
  else if dbm ≤ -20 then some (-20)
  else if dbm ≤ -16 then some (-16)
  else if dbm ≤ -12 then some (-12)
  else if dbm ≤ -8 then some (-8)
  else if dbm ≤ -4 then some (-4)
  else if dbm ≤ 0 then some 0
  else if dbm ≤ 4 then some 4
  else none

/-- The function `ruuvi_interface_communication_ble4_advertising_tx_power_set`;
`dbm` is the `int8_t` the argument points to and `power_err` what
`sd_ble_gap_tx_power_set` returns. -/
def ruuvi_interface_communication_ble4_advertising_tx_power_set (P : Platform) (s : State)
    (dbm : Int) (power_err : Nat) : Nat × State :=
  match tx_power_ladder dbm with
  | none => (RUUVI_DRIVER_ERROR_INVALID_PARAM, s)
  | some tx_power =>
    let s := s.issue (StackCall.sd_ble_gap_tx_power_set BLE_GAP_TX_POWER_ROLE_ADV
      s.m_adv_handle tx_power)
    (P.ruuvi_nrf5_sdk15_to_ruuvi_error power_err, s)

/-- The function `ruuvi_interface_communication_ble4_advertising_tx_power_get`. -/
def ruuvi_interface_communication_ble4_advertising_tx_power_get (s : State) : Nat × State :=
  (RUUVI_DRIVER_ERROR_NOT_IMPLEMENTED, s)

/-- The static table `m_adv_uuids`. -/
def m_adv_uuids : List ble_uuid_t :=
  [{ uuid := BLE_UUID_NUS_SERVICE, type := BLE_UUID_TYPE_VENDOR_BEGIN }]

/-- The function `ruuvi_interface_communication_ble4_advertising_scan_response_setup`;
`name` is `none` for NULL and otherwise the characters before the terminator,
`name_err` is what `sd_ble_gap_device_name_set` returns. The stack keeps the
name it was given when that call succeeds. -/
def ruuvi_interface_communication_ble4_advertising_scan_response_setup (P : Platform)
    (s : State) (name : Option (List Nat)) (advertise_nus : Bool) (name_err : Nat) :
    Nat × State :=
  let err_code := RUUVI_DRIVER_SUCCESS
  let s := { s with m_scan0 := zero_buffer, m_scan1 := zero_buffer }
  let scanrsp : ble_advdata_t :=
    { name_type := BLE_ADVDATA_NO_NAME, flags := 0, p_manuf_specific_data := none
      uuids_complete := [] }
  let (scanrsp, err_code, s) :=
    match name with
    | some name =>
      -- Name will be read from the GAP data
      let len := name.length % 2 ^ 8
      let s := s.issue (StackCall.sd_ble_gap_device_name_set name len)
      let s := if name_err = NRF_SUCCESS then { s with gap_device_name := name.take len } else s
      ({ scanrsp with name_type := BLE_ADVDATA_FULL_NAME }, err_code ||| name_err, s)
    | none => (scanrsp, err_code, s)
  -- Add scan response
  let scanrsp :=
    if advertise_nus then { scanrsp with uuids_complete := m_adv_uuids.take 1 } else scanrsp
  -- Encode data
  let s := { s with m_adv_data := { s.m_adv_data with scan_rsp_data :=
    { s.m_adv_data.scan_rsp_data with len := BLE_GAP_ADV_SET_DATA_SIZE_MAX } } }
  let enc0 := P.ble_advdata_encode s.gap_device_name scanrsp s.m_scan0
    s.m_adv_data.scan_rsp_data.len
  let s := { s with m_scan0 := enc0.buf, m_adv_data := { s.m_adv_data with scan_rsp_data :=
    { s.m_adv_data.scan_rsp_data with len := enc0.len } } }
  let err_code := err_code ||| enc0.err
  let enc1 := P.ble_advdata_encode s.gap_device_name scanrsp s.m_scan1
    s.m_adv_data.scan_rsp_data.len
  let s := { s with m_scan1 := enc1.buf, m_adv_data := { s.m_adv_data with scan_rsp_data :=
    { s.m_adv_data.scan_rsp_data with len := enc1.len } } }
  let err_code := err_code ||| enc1.err
  (P.ruuvi_nrf5_sdk15_to_ruuvi_error err_code, s)

/-- Enumerator of `RUUVI_INTERFACE_COMMUNICATION_BLE4_ADVERTISING_TYPE`. -/
def NONCONNECTABLE_NONSCANNABLE : Nat := 0
/-- Enumerator of `RUUVI_INTERFACE_COMMUNICATION_BLE4_ADVERTISING_TYPE`. -/
def NONCONNECTABLE_SCANNABLE : Nat := 1
/-- Enumerator of `RUUVI_INTERFACE_COMMUNICATION_BLE4_ADVERTISING_TYPE`. -/
def CONNECTABLE_NONSCANNABLE : Nat := 2
/-- Enumerator of `RUUVI_INTERFACE_COMMUNICATION_BLE4_ADVERTISING_TYPE`. -/
def CONNECTABLE_SCANNABLE : Nat := 3

/-- The function `ruuvi_interface_communication_ble4_advertising_type_set`. -/
def ruuvi_interface_communication_ble4_advertising_type_set (s : State) (type : Nat) :
    Nat × State :=
  let set (t : Nat) : State := { s with m_adv_params := { s.m_adv_params with type := t } }
  if type = NONCONNECTABLE_NONSCANNABLE then
    (RUUVI_DRIVER_SUCCESS, set BLE_GAP_ADV_TYPE_NONCONNECTABLE_NONSCANNABLE_UNDIRECTED)
  else if type = NONCONNECTABLE_SCANNABLE then
    (RUUVI_DRIVER_SUCCESS, set BLE_GAP_ADV_TYPE_NONCONNECTABLE_SCANNABLE_UNDIRECTED)
  else if type = CONNECTABLE_NONSCANNABLE then
    (RUUVI_DRIVER_SUCCESS, set BLE_GAP_ADV_TYPE_EXTENDED_CONNECTABLE_NONSCANNABLE_UNDIRECTED)
  else if type = CONNECTABLE_SCANNABLE then
    (RUUVI_DRIVER_SUCCESS, set BLE_GAP_ADV_TYPE_CONNECTABLE_SCANNABLE_UNDIRECTED)
  else (RUUVI_DRIVER_ERROR_INVALID_PARAM, s)

/-- The function `ruuvi_interface_communication_ble4_advertising_notify_stop`. -/
def ruuvi_interface_communication_ble4_advertising_notify_stop (s : State) : State :=
  { s with m_advertising := false }

/-- The function `ruuvi_interface_communication_ble4_advertising_start`; `cfg`
and `start_err` are what the configure and start calls return. -/
def ruuvi_interface_communication_ble4_advertising_start (P : Platform) (s : State)
    (cfg : ConfigureResult) (start_err : Nat) : Nat × State :=
  let err_code := RUUVI_DRIVER_SUCCESS
  let s := { s.issue (StackCall.sd_ble_gap_adv_set_configure s.m_adv_handle none
              (some s.m_adv_params)) with m_adv_handle := cfg.handle }
  let err_code := err_code ||| cfg.err
  let s := s.issue (StackCall.sd_ble_gap_adv_start s.m_adv_handle
    RUUVI_NRF5_SDK15_BLE4_STACK_CONN_TAG)
  let err_code := err_code ||| P.ruuvi_nrf5_sdk15_to_ruuvi_error start_err
  let s := if RUUVI_DRIVER_SUCCESS = err_code then { s with m_advertising := true } else s
  (err_code, s)

/-- The function `ruuvi_interface_communication_ble4_advertising_stop`;
`stop_err` is what the stop call returns. -/
def ruuvi_interface_communication_ble4_advertising_stop (P : Platform) (s : State)
    (stop_err : Nat) : Nat × State :=
  let err_code := RUUVI_DRIVER_SUCCESS
  let s := s.issue (StackCall.sd_ble_gap_adv_stop RUUVI_NRF5_SDK15_BLE4_STACK_CONN_TAG)
  let err_code := err_code ||| P.ruuvi_nrf5_sdk15_to_ruuvi_error stop_err
  let s := if RUUVI_DRIVER_SUCCESS = err_code then { s with m_advertising := false } else s
  (err_code, s)

/-! ## The encoder and a decoder of advertising data -/

/-- Little-endian bytes of a 16-bit value, as `uint16_encode` of app_util.h. -/
def uint16_encode (value : Nat) : List Nat :=
  [value % 256, (value / 256) % 256]

/-- One advertising-data structure: length octet, type octet, payload. -/
def ad_structure (ad_type : Nat) (payload : List Nat) : List Nat :=
  (1 + payload.length) :: ad_type :: payload

/-- Advertising-data type of the flags field. -/
def BLE_GAP_AD_TYPE_FLAGS : Nat := 0x01
/-- Advertising-data type of a complete list of 128-bit service identifiers. -/
def BLE_GAP_AD_TYPE_128BIT_SERVICE_UUID_COMPLETE : Nat := 0x07
/-- Advertising-data type of a shortened local name. -/
def BLE_GAP_AD_TYPE_SHORT_LOCAL_NAME : Nat := 0x08
/-- Advertising-data type of a complete local name. -/
def BLE_GAP_AD_TYPE_COMPLETE_LOCAL_NAME : Nat := 0x09
/-- Advertising-data type of manufacturer-specific data. -/
def BLE_GAP_AD_TYPE_MANUFACTURER_SPECIFIC_DATA : Nat := 0xFF

/-- The 128-bit base of the fixed service, least significant octet first. -/
def NUS_BASE_UUID : List Nat :=
  [0x9E, 0xCA, 0xDC, 0x24, 0x0E, 0xE5, 0xA9, 0xE0, 0x93, 0xF3, 0xA3, 0xB5, 0x00, 0x00, 0x40, 0x6E]

/-- The 16 octets of a vendor service identifier: the base with the 16-bit
identifier in octets 12 and 13. -/
def uuid128_encode (u : ble_uuid_t) : List Nat :=
  NUS_BASE_UUID.take 12 ++ uint16_encode u.uuid ++ NUS_BASE_UUID.drop 14

/-- One step of the encoder: append a field unless an earlier field failed or
the field would pass the capacity. -/
def encode_append (max_size : Nat) (acc : Nat × List Nat) (field : List Nat) : Nat × List Nat :=
  if acc.1 ≠ NRF_SUCCESS then acc
  else if acc.2.length + field.length > max_size then (NRF_ERROR_DATA_SIZE, acc.2)
  else (NRF_SUCCESS, acc.2 ++ field)

/-- The name field for the room left after its two header octets: the complete
name when it fits, else as much of it as fits, marked shortened. -/
def name_field (gap_name : List Nat) (room : Nat) : List Nat :=
  if gap_name.length ≤ room then ad_structure BLE_GAP_AD_TYPE_COMPLETE_LOCAL_NAME gap_name
  else ad_structure BLE_GAP_AD_TYPE_SHORT_LOCAL_NAME (gap_name.take room)

/-- Modelled from the spec: the advertising-data encoder `ble_advdata_encode`
(the "advertising-data encoder collaborator") is not among the sources. It
writes, in this order, a flags field when the flags are non-zero, a complete
list of 128-bit service identifiers when there are any, the manufacturer
specific data (company identifier, least significant octet first, then the
payload) when present, and the device name held by the stack when a name is
requested; each field is a length octet, a type octet and its payload. It
fails with `NRF_ERROR_DATA_SIZE` at the first field that would pass the
capacity found in `*p_len`, and leaves in `*p_len` the number of octets
written. -/
def ble_advdata_encode (gap_name : List Nat) (p_advdata : ble_advdata_t)
    (p_encoded_data : List Nat) (max_size : Nat) : EncodeResult :=
  let acc : Nat × List Nat := (NRF_SUCCESS, [])
  let acc :=
    if p_advdata.flags ≠ 0 then
      encode_append max_size acc (ad_structure BLE_GAP_AD_TYPE_FLAGS [p_advdata.flags])
    else acc
  let acc :=
    if p_advdata.uuids_complete ≠ [] then
      encode_append max_size acc (ad_structure BLE_GAP_AD_TYPE_128BIT_SERVICE_UUID_COMPLETE
        (p_advdata.uuids_complete.map uuid128_encode).flatten)
    else acc
  let acc :=
    match p_advdata.p_manuf_specific_data with
    | some m =>
      encode_append max_size acc (ad_structure BLE_GAP_AD_TYPE_MANUFACTURER_SPECIFIC_DATA
        (uint16_encode m.company_identifier ++ m.p_data.take m.size))
    | none => acc
  let acc :=
    if p_advdata.name_type ≠ BLE_ADVDATA_NO_NAME then
      encode_append max_size acc (name_field gap_name (max_size - acc.2.length - 2))
    else acc
  { err := acc.1
    buf := acc.2 ++ p_encoded_data.drop acc.2.length
    len := acc.2.length }

/-- The platform whose encoder is the modelled `ble_advdata_encode`, for a
given status translation. -/
def sdk15_platform (translate : Nat → Nat) : Platform :=
  { ruuvi_nrf5_sdk15_to_ruuvi_error := translate
    ble_advdata_encode := ble_advdata_encode }

/-- Modelled from the spec: the decoder of the round-trip property ("decode the
resulting advertisement buffer") is not among the sources. It reads the octets
as a sequence of fields, each a length octet followed by that many octets, the
first of which is the type; `none` when a field is empty or runs past the end. -/
def ad_decode : Nat → List Nat → Option (List (Nat × List Nat))
  | _, [] => some []
  | 0, _ :: _ => none
  | fuel + 1, len :: rest =>
    if rest.length < len then none else
    match rest.take len with
    | [] => none
    | ad_type :: payload =>
      (ad_decode fuel (rest.drop len)).map (fun fields => (ad_type, payload) :: fields)

/-- The decoder with fuel for every octet. -/
def decode_advertisement (bytes : List Nat) : Option (List (Nat × List Nat)) :=
  ad_decode bytes.length bytes

/-- The manufacturer-specific field of a decoded advertisement: its company
identifier and its payload. -/
def manufacturer_field : List (Nat × List Nat) → Option (Nat × List Nat)
  | [] => none
  | (ad_type, payload) :: fields =>
    if ad_type = BLE_GAP_AD_TYPE_MANUFACTURER_SPECIFIC_DATA then
      match payload with
      | lo :: hi :: data => some (lo + 256 * hi, data)
      | _ => none
    else manufacturer_field fields

/-- The payloads of the flags fields of a decoded advertisement. -/
def flags_fields (fields : List (Nat × List Nat)) : List (List Nat) :=
  (fields.filter (fun f => f.1 = BLE_GAP_AD_TYPE_FLAGS)).map Prod.snd

/-! ## What the stack was handed -/

/-- The advertising data of the latest call, when that call is a configure call
that carries advertising data. -/
def State.last_adv_data (s : State) : Option ble_gap_adv_data_t :=
  match s.calls with
  | StackCall.sd_ble_gap_adv_set_configure _ (some d) _ :: _ => some d
  | _ => none

/-- The advertisement buffer the latest configure call pointed the stack to. -/
def State.handed_slot (s : State) : Option Slot :=
  match s.last_adv_data with
  | some d => d.adv_data.p_data
  | none => none

/-- The octets the latest configure call handed over as advertisement. -/
def State.handed_bytes (s : State) : Option (List Nat) :=
  match s.last_adv_data with
  | some d => d.adv_data.p_data.map (fun p => (s.buffer p).take d.adv_data.len)
  | none => none

/-- The members of the transmit-power ladder. -/
def tx_power_levels : List Int := [-40, -20, -16, -12, -8, -4, 0, 4]

/-- The transmit powers of the hardware calls in a log, latest first. -/
def tx_power_calls : List StackCall → List Int
  | [] => []
  | StackCall.sd_ble_gap_tx_power_set _ _ p :: cs => p :: tx_power_calls cs
  | _ :: cs => tx_power_calls cs

/-- The reading of "quantizes downward" in the specification: `v` is the
greatest member of the ladder that is at most `dbm`. -/
def quantizes_downward (dbm v : Int) : Prop :=
  v ∈ tx_power_levels ∧ v ≤ dbm ∧ ∀ w ∈ tx_power_levels, w ≤ dbm → w ≤ v

/-- The opposite rounding: `v` is the least member of the ladder that is at
least `dbm`. -/
def quantizes_upward (dbm v : Int) : Prop :=
  v ∈ tx_power_levels ∧ dbm ≤ v ∧ ∀ w ∈ tx_power_levels, dbm ≤ w → v ≤ w

/-- The structure `data_set` passes to the encoder for a company identifier
and `n` bytes of `data`. -/
def manufacturer_advdata (company : Nat) (data : List Nat) (n : Nat) : ble_advdata_t :=
  { name_type := BLE_ADVDATA_NO_NAME, uuids_complete := []
    flags := BLE_GAP_ADV_FLAG_BR_EDR_NOT_SUPPORTED
    p_manuf_specific_data := some { p_data := data.take n, size := n
                                    company_identifier := company } }

/-- The company identifier `data_set` encodes for a configured identifier. -/
def encoded_company (manufacturer_id : Nat) : Nat :=
  if 0 = manufacturer_id then 0xFFFF else manufacturer_id

/-! ## Concrete inputs used to exercise the theorems -/

/-- A platform with the modelled encoder and the identity as translation. -/
def example_platform : Platform := sdk15_platform id

/-- A platform with the modelled encoder whose translation maps
`NRF_ERROR_INVALID_PARAM` to `RUUVI_DRIVER_ERROR_INVALID_PARAM` and leaves every
other status as it is. -/
def example_invalid_param_platform : Platform :=
  sdk15_platform (fun e => if e = NRF_ERROR_INVALID_PARAM then RUUVI_DRIVER_ERROR_INVALID_PARAM
    else e)

/-- The start-up state after `data_set([1, 2], 2)`. -/
def example_first : State :=
  (ruuvi_interface_communication_ble4_advertising_data_set example_platform initial_state
    (some [1, 2]) 2 ⟨0, 0⟩).2

/-- The state `example_first` after `data_set([3], 1)`. -/
def example_second : State :=
  (ruuvi_interface_communication_ble4_advertising_data_set example_platform example_first
    (some [3]) 1 ⟨0, 0⟩).2

/-- The start-up state after a successful `init` on the channel at address 1. -/
def example_initialized : State :=
  (ruuvi_interface_communication_ble4_advertising_init example_platform initial_state 1 0).2

/-! ## Sequences of operations -/

/-- One call of a function of the file, with its arguments and the results of
the stack calls it may issue. -/
inductive Op where
  | init (channel radio_err : Nat)
  | uninit (channel stop_err radio_err : Nat)
  | tx_interval_set (ms stop_err : Nat) (cfg : ConfigureResult) (start_err : Nat)
  | tx_interval_get
  | manufacturer_id_set (id : Nat)
  | data_set (data : Option (List Nat)) (data_length : Nat) (cfg : ConfigureResult)
  | send (message : Option ruuvi_interface_communication_message_t) (cfg : ConfigureResult)
  | receive
  | tx_power_set (dbm : Int) (power_err : Nat)
  | tx_power_get
  | scan_response_setup (name : Option (List Nat)) (advertise_nus : Bool) (name_err : Nat)
  | type_set (type : Nat)
  | notify_stop
  | start (cfg : ConfigureResult) (start_err : Nat)
  | stop (stop_err : Nat)
  | activity_handler (evt : Nat)

/-- The state after one call. -/
def step (P : Platform) (s : State) : Op → State
  | Op.init channel radio_err =>
    (ruuvi_interface_communication_ble4_advertising_init P s channel radio_err).2
  | Op.uninit channel stop_err radio_err =>
    (ruuvi_interface_communication_ble4_advertising_uninit s channel stop_err radio_err).2
  | Op.tx_interval_set ms stop_err cfg start_err =>
    (ruuvi_interface_communication_ble4_advertising_tx_interval_set P s ms stop_err cfg
      start_err).2
  | Op.tx_interval_get => s
  | Op.manufacturer_id_set id =>
    (ruuvi_interface_communication_ble4_advertising_manufacturer_id_set s id).2
  | Op.data_set data data_length cfg =>
    (ruuvi_interface_communication_ble4_advertising_data_set P s data data_length cfg).2
  | Op.send message cfg =>
    (ruuvi_interface_communication_ble4_advertising_send P s message cfg).2
  | Op.receive => (ruuvi_interface_communication_ble4_advertising_receive s).2
  | Op.tx_power_set dbm power_err =>
    (ruuvi_interface_communication_ble4_advertising_tx_power_set P s dbm power_err).2
  | Op.tx_power_get => (ruuvi_interface_communication_ble4_advertising_tx_power_get s).2
  | Op.scan_response_setup name advertise_nus name_err =>
    (ruuvi_interface_communication_ble4_advertising_scan_response_setup P s name advertise_nus
      name_err).2
  | Op.type_set type => (ruuvi_interface_communication_ble4_advertising_type_set s type).2
  | Op.notify_stop => ruuvi_interface_communication_ble4_advertising_notify_stop s
  | Op.start cfg start_err =>
    (ruuvi_interface_communication_ble4_advertising_start P s cfg start_err).2
  | Op.stop stop_err => (ruuvi_interface_communication_ble4_advertising_stop P s stop_err).2
  | Op.activity_handler evt =>
    ruuvi_interface_communication_ble4_advertising_activity_handler s evt

/-- The state after a sequence of calls, first call first. -/
def run (P : Platform) (s : State) : List Op → State
  | [] => s
  | op :: ops => run P (step P s op) ops

/-- Whether a call is a call of `start`. -/
def Op.is_start : Op → Bool
  | Op.start _ _ => true
  | _ => false

/-- Whether, in a sequence of calls, `start` is only called while
`m_advertisement_is_init` is set. -/
def start_when_initialized (P : Platform) (s : State) : List Op → Bool
  | [] => true
  | op :: ops =>
    (!op.is_start || s.m_advertisement_is_init) && start_when_initialized P (step P s op) ops

/-- The stop calls in a log, latest first: the handle each was made on. -/
def stop_calls : List StackCall → List Nat
  | [] => []
  | StackCall.sd_ble_gap_adv_stop handle :: cs => handle :: stop_calls cs
  | _ :: cs => stop_calls cs

/-- The structure `scan_response_setup` passes to the encoder: the full name is
requested when `name` is not NULL, the service identifier listed when
`advertise_nus` is set. -/
def scan_response_advdata (with_name advertise_nus : Bool) : ble_advdata_t :=
  { name_type := if with_name then BLE_ADVDATA_FULL_NAME else BLE_ADVDATA_NO_NAME
    flags := 0
    p_manuf_specific_data := none
    uuids_complete := if advertise_nus then m_adv_uuids.take 1 else [] }

/-- The field the modelled encoder writes for the fixed service identifier. -/
def nus_uuid_field : List Nat :=
  ad_structure BLE_GAP_AD_TYPE_128BIT_SERVICE_UUID_COMPLETE
    ((m_adv_uuids.take 1).map uuid128_encode).flatten

/-- The state `example_initialized` after a `start` the stack accepted, with
the handle 0 assigned by the stack. -/
def example_advertising : State :=
  (ruuvi_interface_communication_ble4_advertising_start example_platform example_initialized
    ⟨0, 0⟩ 0).2

/-- The state `example_advertising` after `uninit` on the channel at address 1. -/
def example_uninitialized : State :=
  (ruuvi_interface_communication_ble4_advertising_uninit example_advertising 1 0 0).2

/-- The start-up state after `scan_response_setup("R", false)` and
`data_set([1, 2], 2)`. -/
def example_scanned : State :=
  (ruuvi_interface_communication_ble4_advertising_data_set example_platform
    (ruuvi_interface_communication_ble4_advertising_scan_response_setup example_platform
      initial_state (some [82]) false 0).2 (some [1, 2]) 2 ⟨0, 0⟩).2

/-! ## Properties of the payload update -/

/-- What a call of `data_set` that passes validation does, in terms of the
state before it. -/
theorem data_set_valid (P : Platform) (s : State) (data : List Nat) (n : Nat)
    (cfg : ConfigureResult) (hn : n ≤ 24) :
    let r := ruuvi_interface_communication_ble4_advertising_data_set P s (some data) n cfg
    r.2.handed_slot = some (select_advertisement s.advertisement_odd) ∧
    r.2.advertisement_odd = !s.advertisement_odd ∧
    (∀ q, q ≠ select_advertisement s.advertisement_odd → r.2.buffer q = s.buffer q) ∧
    r.2.calls.tail = s.calls := by
  have h : ¬ 24 < n := by omega
  cases hodd : s.advertisement_odd <;>
    simp [ruuvi_interface_communication_ble4_advertising_data_set, h, hodd, State.handed_slot,
      State.last_adv_data, State.issue, select_advertisement, select_scan, State.store,
      State.buffer] <;>
    intro q hq <;> cases q <;> simp_all

/-- Claim C1: two consecutive calls of `data_set` that pass validation hand the
stack two different advertisement buffers, one `m_advertisement0` and the other
`m_advertisement1`, whatever the encoder and the configure call return; the
selector is flipped by each of the two calls. -/
theorem C1_data_set_alternates (P : Platform) (s : State) (d1 d2 : List Nat) (n1 n2 : Nat)
    (c1 c2 : ConfigureResult) (h1 : n1 ≤ 24) (h2 : n2 ≤ 24) :
    let s1 := (ruuvi_interface_communication_ble4_advertising_data_set P s (some d1) n1 c1).2
    let s2 := (ruuvi_interface_communication_ble4_advertising_data_set P s1 (some d2) n2 c2).2
    ((s1.handed_slot = some Slot.m_advertisement0 ∧ s2.handed_slot = some Slot.m_advertisement1) ∨
      (s1.handed_slot = some Slot.m_advertisement1 ∧
        s2.handed_slot = some Slot.m_advertisement0)) ∧
    s1.handed_slot ≠ s2.handed_slot ∧
    s1.advertisement_odd = (!s.advertisement_odd) ∧
    s2.advertisement_odd = (!s1.advertisement_odd) := by
  intro s1 s2
  obtain ⟨a1, b1, _, _⟩ := data_set_valid P s d1 n1 c1 h1
  obtain ⟨a2, b2, _, _⟩ := data_set_valid P s1 d2 n2 c2 h2
  have e1 : s1.handed_slot = some (select_advertisement s.advertisement_odd) := a1
  have e2 : s2.handed_slot = some (select_advertisement s1.advertisement_odd) := a2
  have f1 : s1.advertisement_odd = (!s.advertisement_odd) := b1
  have f2 : s2.advertisement_odd = (!s1.advertisement_odd) := b2
  refine ⟨?_, ?_, f1, f2⟩ <;> rw [e1, e2, f1] <;> cases s.advertisement_odd <;>
    simp [select_advertisement]

/-- Witness of C1 on the start-up state. -/
theorem C1_data_set_alternates_witness :
    (2 ≤ 24 ∧ 1 ≤ 24) ∧
    ((example_first.handed_slot = some Slot.m_advertisement0 ∧
        example_second.handed_slot = some Slot.m_advertisement1) ∨
      (example_first.handed_slot = some Slot.m_advertisement1 ∧
        example_second.handed_slot = some Slot.m_advertisement0)) ∧
    example_first.handed_slot ≠ example_second.handed_slot ∧
    example_first.advertisement_odd = (!initial_state.advertisement_odd) ∧
    example_second.advertisement_odd = (!example_first.advertisement_odd) :=
  ⟨by decide, C1_data_set_alternates example_platform initial_state [1, 2] [3] 2 1 ⟨0, 0⟩
    ⟨0, 0⟩ (by decide) (by decide)⟩

/-- Claim C2: a call of `data_set` that passes validation hands the stack the
advertisement buffer it selected and leaves the bytes of every other buffer as
they were; in particular a second such call leaves untouched the bytes of the
advertisement buffer that the call before it handed to the stack. -/
theorem C2_data_set_frame (P : Platform) (s : State) (d1 d2 : List Nat) (n1 n2 : Nat)
    (c1 c2 : ConfigureResult) (h1 : n1 ≤ 24) (h2 : n2 ≤ 24) :
    let s1 := (ruuvi_interface_communication_ble4_advertising_data_set P s (some d1) n1 c1).2
    let s2 := (ruuvi_interface_communication_ble4_advertising_data_set P s1 (some d2) n2 c2).2
    (∀ q, s1.handed_slot ≠ some q → s1.buffer q = s.buffer q) ∧
    (∀ q, s2.handed_slot ≠ some q → s2.buffer q = s1.buffer q) ∧
    ∃ previous, s1.handed_slot = some previous ∧
      (previous = Slot.m_advertisement0 ∨ previous = Slot.m_advertisement1) ∧
      s2.handed_slot ≠ some previous ∧
      s2.buffer previous = s1.buffer previous := by
  intro s1 s2
  obtain ⟨a1, b1, k1, _⟩ := data_set_valid P s d1 n1 c1 h1
  obtain ⟨a2, _, c2, _⟩ := data_set_valid P s1 d2 n2 c2 h2
  have e1 : s1.handed_slot = some (select_advertisement s.advertisement_odd) := a1
  have e2 : s2.handed_slot = some (select_advertisement s1.advertisement_odd) := a2
  have f1 : s1.advertisement_odd = (!s.advertisement_odd) := b1
  have g : ∀ q, q ≠ select_advertisement s1.advertisement_odd → s2.buffer q = s1.buffer q := c2
  have hne : select_advertisement s.advertisement_odd ≠
      select_advertisement s1.advertisement_odd := by
    rw [f1]; cases s.advertisement_odd <;> simp [select_advertisement]
  have g0 : ∀ q, q ≠ select_advertisement s.advertisement_odd → s1.buffer q = s.buffer q := k1
  refine ⟨?_, ?_, select_advertisement s.advertisement_odd, e1, ?_, ?_, g _ hne⟩
  · intro q hq
    apply g0
    intro h
    exact hq (by rw [e1, h])
  · intro q hq
    apply g
    intro h
    exact hq (by rw [e2, h])
  · cases s.advertisement_odd <;> simp [select_advertisement]
  · rw [e2]
    intro h
    exact hne (Option.some.inj h).symm

/-- Witness of C2 on the start-up state. -/
theorem C2_data_set_frame_witness :
    (2 ≤ 24 ∧ 1 ≤ 24) ∧
    (∀ q, example_first.handed_slot ≠ some q →
      example_first.buffer q = initial_state.buffer q) ∧
    (∀ q, example_second.handed_slot ≠ some q →
      example_second.buffer q = example_first.buffer q) ∧
    ∃ previous, example_first.handed_slot = some previous ∧
      (previous = Slot.m_advertisement0 ∨ previous = Slot.m_advertisement1) ∧
      example_second.handed_slot ≠ some previous ∧
      example_second.buffer previous = example_first.buffer previous :=
  ⟨by decide, C2_data_set_frame example_platform initial_state [1, 2] [3] 2 1 ⟨0, 0⟩
    ⟨0, 0⟩ (by decide) (by decide)⟩

/-- Claim C4: for every state, `data_set` with a NULL data pointer returns
`RUUVI_DRIVER_ERROR_NULL`, and with data and a length above 24 returns
`RUUVI_DRIVER_ERROR_INVALID_LENGTH`; in both cases the state after the call is
the state before it (buffers, lengths, selector, handoff structure, call log). -/
theorem C4_data_set_rejects (P : Platform) (s : State) (data : List Nat) (n m : Nat)
    (cfg : ConfigureResult) (hn : 24 < n) :
    ruuvi_interface_communication_ble4_advertising_data_set P s none m cfg =
      (RUUVI_DRIVER_ERROR_NULL, s) ∧
    ruuvi_interface_communication_ble4_advertising_data_set P s (some data) n cfg =
      (RUUVI_DRIVER_ERROR_INVALID_LENGTH, s) := by
  simp [ruuvi_interface_communication_ble4_advertising_data_set, hn]

/-- Witness of C4 on the start-up state, with 25 bytes. -/
theorem C4_data_set_rejects_witness :
    24 < 25 ∧
    (ruuvi_interface_communication_ble4_advertising_data_set example_platform initial_state
        none 3 ⟨0, 0⟩ = (RUUVI_DRIVER_ERROR_NULL, initial_state) ∧
      ruuvi_interface_communication_ble4_advertising_data_set example_platform initial_state
        (some (List.replicate 25 7)) 25 ⟨0, 0⟩ =
        (RUUVI_DRIVER_ERROR_INVALID_LENGTH, initial_state)) :=
  ⟨by decide, C4_data_set_rejects example_platform initial_state (List.replicate 25 7) 25 3
    ⟨0, 0⟩ (by decide)⟩

/-! ## The modelled encoder on the structure `data_set` builds -/

/-- A flags field and a manufacturer field of up to 24 bytes fit into 31 octets:
the encoder succeeds and reports 7 octets more than the payload. -/
theorem encode_manufacturer_advdata (gap_name buf : List Nat) (company : Nat) (data : List Nat)
    (n : Nat) (hn : n ≤ 24) :
    ble_advdata_encode gap_name (manufacturer_advdata company data n) buf
        BLE_GAP_ADV_SET_DATA_SIZE_MAX =
      { err := NRF_SUCCESS
        buf := (ad_structure BLE_GAP_AD_TYPE_FLAGS [BLE_GAP_ADV_FLAG_BR_EDR_NOT_SUPPORTED] ++
            ad_structure BLE_GAP_AD_TYPE_MANUFACTURER_SPECIFIC_DATA
              (uint16_encode company ++ data.take n)) ++
          buf.drop (7 + (data.take n).length)
        len := 7 + (data.take n).length } := by
  have hlen : (data.take n).length ≤ 24 := by
    rw [List.length_take]; omega
  have hfit : ¬ (31 < 3 + (min n data.length + 1 + 1 + 1 + 1)) := by
    rw [List.length_take] at hlen; omega
  simp [ble_advdata_encode, manufacturer_advdata, encode_append, ad_structure,
    uint16_encode, BLE_GAP_ADV_SET_DATA_SIZE_MAX, BLE_GAP_ADV_FLAG_BR_EDR_NOT_SUPPORTED,
    BLE_ADVDATA_NO_NAME, NRF_SUCCESS, hfit, List.take_take]
  have e : min n data.length + 1 + 1 + 1 + 1 + 1 + 1 + 1 = 7 + min n data.length := by omega
  rw [e]
  exact ⟨rfl, rfl⟩

/-! ## Encoding, gating, interval and transmit power -/

/-- The structure `data_set` hands to the encoder is `manufacturer_advdata` at the
encoded company identifier. -/
theorem data_set_advdata (id : Nat) (data : List Nat) (n : Nat) :
    ({ name_type := BLE_ADVDATA_NO_NAME, uuids_complete := []
       flags := BLE_GAP_ADV_FLAG_BR_EDR_NOT_SUPPORTED
       p_manuf_specific_data := some
          (if 0 = id then
            { p_data := data.take n, size := n, company_identifier := 0xFFFF }
          else { p_data := data.take n, size := n, company_identifier := id }) } : ble_advdata_t) =
      manufacturer_advdata (encoded_company id) data n := by
  unfold manufacturer_advdata encoded_company
  split <;> rfl

/-- With the modelled encoder a call of `data_set` that passes validation returns
the translation of the configure status and hands over a flags field followed
by the manufacturer field. -/
theorem data_set_encoded (translate : Nat → Nat) (s : State) (data : List Nat) (n : Nat)
    (cfg : ConfigureResult) (hn : n ≤ 24) :
    let r := ruuvi_interface_communication_ble4_advertising_data_set (sdk15_platform translate)
      s (some data) n cfg
    r.1 = translate cfg.err ∧
    r.2.handed_bytes = some
      (ad_structure BLE_GAP_AD_TYPE_FLAGS [BLE_GAP_ADV_FLAG_BR_EDR_NOT_SUPPORTED] ++
        ad_structure BLE_GAP_AD_TYPE_MANUFACTURER_SPECIFIC_DATA
          (uint16_encode (encoded_company s.m_adv_state.manufacturer_id) ++ data.take n)) ∧
    r.2.last_adv_data.map (fun d => d.adv_data.len) = some (7 + (data.take n).length) := by
  have h : ¬ 24 < n := by omega
  cases hodd : s.advertisement_odd <;>
    simp only [ruuvi_interface_communication_ble4_advertising_data_set, h, hodd, sdk15_platform,
      select_advertisement, select_scan, State.buffer, State.buffer_len, if_false, if_true,
      Bool.false_eq_true, data_set_advdata, encode_manufacturer_advdata _ _ _ _ _ hn,
      State.store, State.issue, State.handed_bytes, State.last_adv_data] <;>
    simp only [NRF_SUCCESS, Nat.zero_or, Option.map_some', true_and, Option.some.injEq,
      and_true] <;>
    (apply List.take_left'; simp [ad_structure, uint16_encode]; omega)

/-- The decoder reads back a flags field followed by a manufacturer field. -/
theorem decode_flags_manufacturer (flags lo hi : Nat) (payload : List Nat) :
    decode_advertisement (ad_structure BLE_GAP_AD_TYPE_FLAGS [flags] ++
        ad_structure BLE_GAP_AD_TYPE_MANUFACTURER_SPECIFIC_DATA (lo :: hi :: payload)) =
      some [(BLE_GAP_AD_TYPE_FLAGS, [flags]),
        (BLE_GAP_AD_TYPE_MANUFACTURER_SPECIFIC_DATA, lo :: hi :: payload)] := by
  have e : 1 + (payload.length + 1 + 1) = (payload.length + 2) + 1 := by omega
  simp [decode_advertisement, ad_structure, ad_decode, e]

/-- Claim C6: after `init`, `manufacturer_id_set(id)` and `data_set(data, n)` with
`n ≤ 24`, decoding the bytes handed to the stack gives exactly two fields: the
flags field holding the single BR/EDR-not-supported flag, and a manufacturer
field whose company identifier is `id` (0xFFFF when `id` is 0) and whose payload
is the first `n` bytes of `data`. -/
theorem C6_round_trip (translate : Nat → Nat) (s : State) (channel radio_err id : Nat)
    (data : List Nat) (n : Nat) (cfg : ConfigureResult)
    (hid : id < 2 ^ 16) (hn : n ≤ 24) (hdata : n ≤ data.length) :
    let P := sdk15_platform translate
    let s1 := (ruuvi_interface_communication_ble4_advertising_init P s channel radio_err).2
    let s2 := (ruuvi_interface_communication_ble4_advertising_manufacturer_id_set s1 id).2
    let s3 := (ruuvi_interface_communication_ble4_advertising_data_set P s2 (some data) n cfg).2
    let fields := [(BLE_GAP_AD_TYPE_FLAGS, [BLE_GAP_ADV_FLAG_BR_EDR_NOT_SUPPORTED]),
      (BLE_GAP_AD_TYPE_MANUFACTURER_SPECIFIC_DATA,
        uint16_encode (if id = 0 then 0xFFFF else id) ++ data.take n)]
    s3.handed_bytes.bind decode_advertisement = some fields ∧
    manufacturer_field fields = some (if id = 0 then 0xFFFF else id, data.take n) ∧
    flags_fields fields = [[BLE_GAP_ADV_FLAG_BR_EDR_NOT_SUPPORTED]] ∧
    (data.take n).length = n := by
  intro P s1 s2 s3 fields
  have hb := (data_set_encoded translate s2 data n cfg hn).2.1
  have hs2 : s2.m_adv_state.manufacturer_id = id := rfl
  rw [hs2] at hb
  have hc : encoded_company id = if id = 0 then 0xFFFF else id := by
    unfold encoded_company
    by_cases h0 : id = 0
    · simp [h0]
    · have h1 : ¬ 0 = id := fun h => h0 h.symm
      simp [h0, h1]
  rw [hc] at hb
  refine ⟨?_, ?_, ?_, ?_⟩
  · show s3.handed_bytes.bind decode_advertisement = _
    have hb' : s3.handed_bytes = _ := hb
    rw [hb']
    simp only [Option.some_bind, uint16_encode, List.cons_append, List.nil_append]
    exact decode_flags_manufacturer _ _ _ _
  · have hval : ∀ v : Nat, v < 2 ^ 16 → v % 256 + 256 * (v / 256 % 256) = v := by
      intro v hv; omega
    by_cases h0 : id = 0
    · simp [fields, h0, manufacturer_field, uint16_encode, BLE_GAP_AD_TYPE_MANUFACTURER_SPECIFIC_DATA,
        BLE_GAP_AD_TYPE_FLAGS]
    · simp [fields, h0, manufacturer_field, uint16_encode, BLE_GAP_AD_TYPE_MANUFACTURER_SPECIFIC_DATA,
        BLE_GAP_AD_TYPE_FLAGS, hval id hid]
  · simp [fields, flags_fields, BLE_GAP_AD_TYPE_MANUFACTURER_SPECIFIC_DATA, BLE_GAP_AD_TYPE_FLAGS]
  · simp [List.length_take, hdata]

/-- Witness of C6: identifier 0x0499 and data `[0x01, 0x02]`. -/
theorem C6_round_trip_witness :
    (0x0499 < 2 ^ 16 ∧ 2 ≤ 24 ∧ 2 ≤ [0x01, 0x02].length) ∧
    ((ruuvi_interface_communication_ble4_advertising_data_set example_platform
        (ruuvi_interface_communication_ble4_advertising_manufacturer_id_set
          (ruuvi_interface_communication_ble4_advertising_init example_platform initial_state 1
            0).2 0x0499).2 (some [0x01, 0x02]) 2 ⟨0, 0⟩).2.handed_bytes.bind
          decode_advertisement =
        some [(BLE_GAP_AD_TYPE_FLAGS, [BLE_GAP_ADV_FLAG_BR_EDR_NOT_SUPPORTED]),
          (BLE_GAP_AD_TYPE_MANUFACTURER_SPECIFIC_DATA,
            uint16_encode (if 0x0499 = 0 then 0xFFFF else 0x0499) ++ [0x01, 0x02].take 2)] ∧
      manufacturer_field [(BLE_GAP_AD_TYPE_FLAGS, [BLE_GAP_ADV_FLAG_BR_EDR_NOT_SUPPORTED]),
          (BLE_GAP_AD_TYPE_MANUFACTURER_SPECIFIC_DATA,
            uint16_encode (if 0x0499 = 0 then 0xFFFF else 0x0499) ++ [0x01, 0x02].take 2)] =
        some (if 0x0499 = 0 then 0xFFFF else 0x0499, [0x01, 0x02].take 2) ∧
      flags_fields [(BLE_GAP_AD_TYPE_FLAGS, [BLE_GAP_ADV_FLAG_BR_EDR_NOT_SUPPORTED]),
          (BLE_GAP_AD_TYPE_MANUFACTURER_SPECIFIC_DATA,
            uint16_encode (if 0x0499 = 0 then 0xFFFF else 0x0499) ++ [0x01, 0x02].take 2)] =
        [[BLE_GAP_ADV_FLAG_BR_EDR_NOT_SUPPORTED]] ∧
      ([0x01, 0x02].take 2).length = 2) :=
  ⟨by decide, C6_round_trip id initial_state 1 0 0x0499 [0x01, 0x02] 2 ⟨0, 0⟩ (by decide)
    (by decide) (by decide)⟩



/-- The function `init` does not write the advertising flag. -/
theorem init_keeps_advertising (P : Platform) (s : State) (channel radio_err : Nat) :
    (ruuvi_interface_communication_ble4_advertising_init P s channel radio_err).2.m_advertising =
      s.m_advertising := by
  cases h : s.m_advertisement_is_init <;>
    simp [ruuvi_interface_communication_ble4_advertising_init, State.issue, h,
      apply_ite Prod.snd, apply_ite State.m_advertising]

/-- Claim C3: `send` with a message on the start-up state after `init` (before any
`start`) returns `RUUVI_DRIVER_ERROR_INVALID_STATE` and changes nothing; after a
`start` that returned success the advertising flag is set and `send` returns
exactly what `data_set` returns for the data and length of the message, which
is success when the length is at most 24 and the configure call is accepted;
after `notify_stop` it returns `RUUVI_DRIVER_ERROR_INVALID_STATE` and the state
(buffers, selector, call log) is unchanged. -/
theorem C3_send_gated (translate : Nat → Nat) (s : State) (channel radio_err : Nat)
    (message : ruuvi_interface_communication_message_t) (cfg0 cfg : ConfigureResult)
    (start_err : Nat)
    (htr : translate NRF_SUCCESS = RUUVI_DRIVER_SUCCESS)
    (hstart : (ruuvi_interface_communication_ble4_advertising_start (sdk15_platform translate) s
      cfg0 start_err).1 = RUUVI_DRIVER_SUCCESS)
    (hlen : message.data_length ≤ 24) (hcfg : cfg.err = NRF_SUCCESS) :
    let P := sdk15_platform translate
    let before := (ruuvi_interface_communication_ble4_advertising_init P initial_state channel
      radio_err).2
    let started := (ruuvi_interface_communication_ble4_advertising_start P s cfg0 start_err).2
    let stopped := ruuvi_interface_communication_ble4_advertising_notify_stop s
    ruuvi_interface_communication_ble4_advertising_send P before (some message) cfg =
      (RUUVI_DRIVER_ERROR_INVALID_STATE, before) ∧
    started.m_advertising = true ∧
    ruuvi_interface_communication_ble4_advertising_send P started (some message) cfg =
      ruuvi_interface_communication_ble4_advertising_data_set P started (some message.data)
        message.data_length cfg ∧
    (ruuvi_interface_communication_ble4_advertising_send P started (some message) cfg).1 =
      RUUVI_DRIVER_SUCCESS ∧
    ruuvi_interface_communication_ble4_advertising_send P stopped (some message) cfg =
      (RUUVI_DRIVER_ERROR_INVALID_STATE, stopped) := by
  intro P before started stopped
  have hb : before.m_advertising = false := init_keeps_advertising P initial_state channel radio_err
  have hs : started.m_advertising = true := by
    have h := hstart
    simp only [ruuvi_interface_communication_ble4_advertising_start] at h
    simp only [started, ruuvi_interface_communication_ble4_advertising_start, h]
    simp
  have hsend : ruuvi_interface_communication_ble4_advertising_send P started (some message) cfg =
      ruuvi_interface_communication_ble4_advertising_data_set P started (some message.data)
        message.data_length cfg := by
    simp [ruuvi_interface_communication_ble4_advertising_send, hs]
  refine ⟨?_, hs, hsend, ?_, ?_⟩
  · simp [ruuvi_interface_communication_ble4_advertising_send, hb]
  · rw [hsend, (data_set_encoded translate started message.data message.data_length cfg hlen).1,
      hcfg, htr]
  · simp [ruuvi_interface_communication_ble4_advertising_send, stopped,
      ruuvi_interface_communication_ble4_advertising_notify_stop]

/-- Witness of C3: a three-byte message, `start` accepted by the stack. -/
theorem C3_send_gated_witness :
    (id NRF_SUCCESS = RUUVI_DRIVER_SUCCESS ∧
      (ruuvi_interface_communication_ble4_advertising_start example_platform example_first
        ⟨0, 0⟩ 0).1 = RUUVI_DRIVER_SUCCESS ∧
      (⟨[1, 2, 3], 3⟩ : ruuvi_interface_communication_message_t).data_length ≤ 24 ∧
      (⟨0, 0⟩ : ConfigureResult).err = NRF_SUCCESS) ∧
    (ruuvi_interface_communication_ble4_advertising_send example_platform
        (ruuvi_interface_communication_ble4_advertising_init example_platform initial_state 1
          0).2 (some ⟨[1, 2, 3], 3⟩) ⟨0, 0⟩ =
      (RUUVI_DRIVER_ERROR_INVALID_STATE,
        (ruuvi_interface_communication_ble4_advertising_init example_platform initial_state 1
          0).2) ∧
    (ruuvi_interface_communication_ble4_advertising_start example_platform example_first
        ⟨0, 0⟩ 0).2.m_advertising = true ∧
    ruuvi_interface_communication_ble4_advertising_send example_platform
        (ruuvi_interface_communication_ble4_advertising_start example_platform example_first
          ⟨0, 0⟩ 0).2 (some ⟨[1, 2, 3], 3⟩) ⟨0, 0⟩ =
      ruuvi_interface_communication_ble4_advertising_data_set example_platform
        (ruuvi_interface_communication_ble4_advertising_start example_platform example_first
          ⟨0, 0⟩ 0).2 (some [1, 2, 3]) 3 ⟨0, 0⟩ ∧
    (ruuvi_interface_communication_ble4_advertising_send example_platform
        (ruuvi_interface_communication_ble4_advertising_start example_platform example_first
          ⟨0, 0⟩ 0).2 (some ⟨[1, 2, 3], 3⟩) ⟨0, 0⟩).1 = RUUVI_DRIVER_SUCCESS ∧
    ruuvi_interface_communication_ble4_advertising_send example_platform
        (ruuvi_interface_communication_ble4_advertising_notify_stop example_first)
        (some ⟨[1, 2, 3], 3⟩) ⟨0, 0⟩ =
      (RUUVI_DRIVER_ERROR_INVALID_STATE,
        ruuvi_interface_communication_ble4_advertising_notify_stop example_first)) :=
  ⟨⟨rfl, by decide, by decide, rfl⟩,
    C3_send_gated id example_first 1 0 ⟨[1, 2, 3], 3⟩ ⟨0, 0⟩ ⟨0, 0⟩ 0 rfl (by decide)
      (by decide) rfl⟩

/-- Claim C5: for `n ≤ 24` bytes of any content `data_set` returns success when
the configure call is accepted: the modelled encoder succeeds on the structure
`data_set` builds, the flags field takes 3 octets and the manufacturer field
`4 + n`, so the encoded length, which is the length handed to the stack, is
`n + 7`, within `BLE_GAP_ADV_SET_DATA_SIZE_MAX`. -/
theorem C5_data_set_succeeds (translate : Nat → Nat) (s : State) (data : List Nat) (n : Nat)
    (cfg : ConfigureResult) (gap_name buf : List Nat) (company : Nat)
    (hn : n ≤ 24) (hdata : n ≤ data.length)
    (htr : translate NRF_SUCCESS = RUUVI_DRIVER_SUCCESS) (hcfg : cfg.err = NRF_SUCCESS) :
    let r := ruuvi_interface_communication_ble4_advertising_data_set (sdk15_platform translate)
      s (some data) n cfg
    let enc := ble_advdata_encode gap_name (manufacturer_advdata company data n) buf
      BLE_GAP_ADV_SET_DATA_SIZE_MAX
    r.1 = RUUVI_DRIVER_SUCCESS ∧
    r.2.last_adv_data.map (fun d => d.adv_data.len) = some (n + 7) ∧
    enc.err = NRF_SUCCESS ∧ enc.len = n + 7 ∧
    (ad_structure BLE_GAP_AD_TYPE_FLAGS [BLE_GAP_ADV_FLAG_BR_EDR_NOT_SUPPORTED]).length = 3 ∧
    (ad_structure BLE_GAP_AD_TYPE_MANUFACTURER_SPECIFIC_DATA
      (uint16_encode company ++ data.take n)).length = 4 + n ∧
    n + 7 ≤ BLE_GAP_ADV_SET_DATA_SIZE_MAX := by
  intro r enc
  have hl : (data.take n).length = n := by simp [List.length_take, hdata]
  obtain ⟨h1, _, h3⟩ := data_set_encoded translate s data n cfg hn
  have he := encode_manufacturer_advdata gap_name buf company data n hn
  refine ⟨?_, ?_, ?_, ?_, ?_, ?_, ?_⟩
  · show r.1 = _
    rw [h1, hcfg, htr]
  · show r.2.last_adv_data.map _ = _
    rw [h3, hl, Nat.add_comm]
  · simp only [enc, he]
  · simp only [enc, he, hl]; omega
  · simp [ad_structure]
  · simp [ad_structure, uint16_encode, hl]; omega
  · simp only [BLE_GAP_ADV_SET_DATA_SIZE_MAX]; omega

/-- Witness of C5: 24 bytes, the longest payload. -/
theorem C5_data_set_succeeds_witness :
    (24 ≤ 24 ∧ 24 ≤ (List.replicate 24 0xAB).length ∧
      id NRF_SUCCESS = RUUVI_DRIVER_SUCCESS ∧ (⟨0, 0⟩ : ConfigureResult).err = NRF_SUCCESS) ∧
    ((ruuvi_interface_communication_ble4_advertising_data_set example_platform initial_state
        (some (List.replicate 24 0xAB)) 24 ⟨0, 0⟩).1 = RUUVI_DRIVER_SUCCESS ∧
      (ruuvi_interface_communication_ble4_advertising_data_set example_platform initial_state
        (some (List.replicate 24 0xAB)) 24 ⟨0, 0⟩).2.last_adv_data.map
          (fun d => d.adv_data.len) = some (24 + 7) ∧
      (ble_advdata_encode [] (manufacturer_advdata 0x0499 (List.replicate 24 0xAB) 24)
        zero_buffer BLE_GAP_ADV_SET_DATA_SIZE_MAX).err = NRF_SUCCESS ∧
      (ble_advdata_encode [] (manufacturer_advdata 0x0499 (List.replicate 24 0xAB) 24)
        zero_buffer BLE_GAP_ADV_SET_DATA_SIZE_MAX).len = 24 + 7 ∧
      (ad_structure BLE_GAP_AD_TYPE_FLAGS [BLE_GAP_ADV_FLAG_BR_EDR_NOT_SUPPORTED]).length = 3 ∧
      (ad_structure BLE_GAP_AD_TYPE_MANUFACTURER_SPECIFIC_DATA
        (uint16_encode 0x0499 ++ (List.replicate 24 0xAB).take 24)).length = 4 + 24 ∧
      24 + 7 ≤ BLE_GAP_ADV_SET_DATA_SIZE_MAX) :=
  ⟨⟨by decide, by decide, rfl, rfl⟩,
    C5_data_set_succeeds id initial_state (List.replicate 24 0xAB) 24 ⟨0, 0⟩ [] zero_buffer
      0x0499 (by decide) (by decide) rfl rfl⟩

/-- Claim C7: for `ms` below 100 or above 10000 `tx_interval_set` returns
`RUUVI_DRIVER_ERROR_INVALID_PARAM` and the state after the call is the state
before it: stored interval, advertising parameters, both flags and the call
log are unchanged. -/
theorem C7_tx_interval_set_rejects (P : Platform) (s : State) (ms stop_err : Nat)
    (cfg : ConfigureResult) (start_err : Nat) (hms : ms < 100 ∨ 10000 < ms) :
    let r := ruuvi_interface_communication_ble4_advertising_tx_interval_set P s ms stop_err cfg
      start_err
    r = (RUUVI_DRIVER_ERROR_INVALID_PARAM, s) ∧
    ruuvi_interface_communication_ble4_advertising_tx_interval_get r.2 =
      ruuvi_interface_communication_ble4_advertising_tx_interval_get s ∧
    r.2.m_adv_params = s.m_adv_params ∧
    r.2.m_advertisement_is_init = s.m_advertisement_is_init ∧
    r.2.m_advertising = s.m_advertising ∧
    r.2.calls = s.calls := by
  have h : MIN_ADV_INTERVAL_MS > ms ∨ MAX_ADV_INTERVAL_MS < ms := by
    simp only [MIN_ADV_INTERVAL_MS, MAX_ADV_INTERVAL_MS]; omega
  simp [ruuvi_interface_communication_ble4_advertising_tx_interval_set, h]

/-- Claim C8: for `ms` in [100, 10000], on an initialised controller whose stack
calls all return `NRF_SUCCESS`, `tx_interval_set` returns success and
`tx_interval_get` then writes exactly `ms`. -/
theorem C8_tx_interval_round_trip (P : Platform) (s : State) (ms : Nat)
    (cfg : ConfigureResult)
    (hlo : 100 ≤ ms) (hhi : ms ≤ 10000) (hinit : s.m_advertisement_is_init = true)
    (htr : P.ruuvi_nrf5_sdk15_to_ruuvi_error NRF_SUCCESS = RUUVI_DRIVER_SUCCESS)
    (hcfg : cfg.err = NRF_SUCCESS) :
    let r := ruuvi_interface_communication_ble4_advertising_tx_interval_set P s ms NRF_SUCCESS
      cfg NRF_SUCCESS
    r.1 = RUUVI_DRIVER_SUCCESS ∧
    ruuvi_interface_communication_ble4_advertising_tx_interval_get r.2 =
      (RUUVI_DRIVER_SUCCESS, ms) := by
  have h : ¬ (MIN_ADV_INTERVAL_MS > ms ∨ MAX_ADV_INTERVAL_MS < ms) := by
    simp only [MIN_ADV_INTERVAL_MS, MAX_ADV_INTERVAL_MS]; omega
  cases hadv : s.m_advertising <;>
    simp [ruuvi_interface_communication_ble4_advertising_tx_interval_set, h, update_settings,
      hinit, hadv, State.issue, hcfg, htr, NRF_SUCCESS,
      ruuvi_interface_communication_ble4_advertising_tx_interval_get] <;>
    simpa [NRF_SUCCESS] using htr

/-- Witness of C7: 99 ms. -/
theorem C7_tx_interval_set_rejects_witness :
    (99 < 100 ∨ 10000 < 99) ∧
    (ruuvi_interface_communication_ble4_advertising_tx_interval_set example_platform
        example_first 99 0 ⟨0, 0⟩ 0 = (RUUVI_DRIVER_ERROR_INVALID_PARAM, example_first) ∧
      ruuvi_interface_communication_ble4_advertising_tx_interval_get
          (ruuvi_interface_communication_ble4_advertising_tx_interval_set example_platform
            example_first 99 0 ⟨0, 0⟩ 0).2 =
        ruuvi_interface_communication_ble4_advertising_tx_interval_get example_first ∧
      (ruuvi_interface_communication_ble4_advertising_tx_interval_set example_platform
        example_first 99 0 ⟨0, 0⟩ 0).2.m_adv_params = example_first.m_adv_params ∧
      (ruuvi_interface_communication_ble4_advertising_tx_interval_set example_platform
        example_first 99 0 ⟨0, 0⟩ 0).2.m_advertisement_is_init =
          example_first.m_advertisement_is_init ∧
      (ruuvi_interface_communication_ble4_advertising_tx_interval_set example_platform
        example_first 99 0 ⟨0, 0⟩ 0).2.m_advertising = example_first.m_advertising ∧
      (ruuvi_interface_communication_ble4_advertising_tx_interval_set example_platform
        example_first 99 0 ⟨0, 0⟩ 0).2.calls = example_first.calls) :=
  ⟨by decide, C7_tx_interval_set_rejects example_platform example_first 99 0 ⟨0, 0⟩ 0
    (by decide)⟩

/-- Witness of C8: 2500 ms on the initialised start-up state. -/
theorem C8_tx_interval_round_trip_witness :
    (100 ≤ 2500 ∧ 2500 ≤ 10000 ∧ example_initialized.m_advertisement_is_init = true ∧
      example_platform.ruuvi_nrf5_sdk15_to_ruuvi_error NRF_SUCCESS = RUUVI_DRIVER_SUCCESS ∧
      (⟨0, 0⟩ : ConfigureResult).err = NRF_SUCCESS) ∧
    ((ruuvi_interface_communication_ble4_advertising_tx_interval_set example_platform
        example_initialized 2500 NRF_SUCCESS ⟨0, 0⟩ NRF_SUCCESS).1 = RUUVI_DRIVER_SUCCESS ∧
      ruuvi_interface_communication_ble4_advertising_tx_interval_get
          (ruuvi_interface_communication_ble4_advertising_tx_interval_set example_platform
            example_initialized 2500 NRF_SUCCESS ⟨0, 0⟩ NRF_SUCCESS).2 =
        (RUUVI_DRIVER_SUCCESS, 2500)) :=
  ⟨⟨by decide, by decide, rfl, rfl, rfl⟩,
    C8_tx_interval_round_trip example_platform example_initialized 2500 ⟨0, 0⟩ (by decide)
      (by decide) rfl rfl rfl⟩

/-- For a request of at most 4 the comparison chain of `tx_power_set` picks a
member of the ladder, and for a request of at least -40 that member is the
least one that is not below the request. -/
theorem tx_power_ladder_upward (dbm : Int) (hhi : dbm ≤ 4) :
    ∃ v, tx_power_ladder dbm = some v ∧ v ∈ tx_power_levels ∧
      (-40 ≤ dbm → quantizes_upward dbm v) := by
  unfold tx_power_ladder
  split_ifs <;>
    refine ⟨_, rfl, by simp [tx_power_levels], fun hlo => ⟨by simp [tx_power_levels], by omega, ?_⟩⟩ <;>
    simp only [tx_power_levels, List.mem_cons, List.mem_singleton, List.not_mem_nil, or_false] <;>
    rintro w (rfl | rfl | rfl | rfl | rfl | rfl | rfl | rfl) <;> omega

/-- Counterexample to C9 as stated: a request of -5 dBm is issued to the hardware
as -4 dBm, which is above the request, so it is not the greatest member of the
ladder at or below -5, and it is not -8. -/
theorem C9_tx_power_downward_counterexample :
    (-40 ≤ (-5 : Int) ∧ (-5 : Int) ≤ 4) ∧
    tx_power_calls (ruuvi_interface_communication_ble4_advertising_tx_power_set example_platform
      initial_state (-5) NRF_SUCCESS).2.calls = [-4] ∧
    ¬ quantizes_downward (-5) (-4) ∧
    tx_power_calls (ruuvi_interface_communication_ble4_advertising_tx_power_set example_platform
      initial_state (-5) NRF_SUCCESS).2.calls ≠ [-8] := by
  refine ⟨by decide, by decide, ?_, by decide⟩
  intro h
  exact absurd h.2.1 (by decide)

/-- Claim C9, amended: for `-40 ≤ dbm ≤ 4` the value `tx_power_set` passes to the
hardware call is the least member of the ladder that is at least `dbm`; a
request of -5 dBm is issued as -4 dBm and a request of 4 dBm as 4 dBm. -/
theorem C9_tx_power_rounds_up (P : Platform) (s : State) (dbm : Int) (power_err : Nat)
    (hlo : -40 ≤ dbm) (hhi : dbm ≤ 4) :
    (∃ v, (ruuvi_interface_communication_ble4_advertising_tx_power_set P s dbm power_err).2.calls =
        StackCall.sd_ble_gap_tx_power_set BLE_GAP_TX_POWER_ROLE_ADV s.m_adv_handle v :: s.calls ∧
      quantizes_upward dbm v) ∧
    (ruuvi_interface_communication_ble4_advertising_tx_power_set P s (-5) power_err).2.calls =
      StackCall.sd_ble_gap_tx_power_set BLE_GAP_TX_POWER_ROLE_ADV s.m_adv_handle (-4) :: s.calls ∧
    (ruuvi_interface_communication_ble4_advertising_tx_power_set P s 4 power_err).2.calls =
      StackCall.sd_ble_gap_tx_power_set BLE_GAP_TX_POWER_ROLE_ADV s.m_adv_handle 4 :: s.calls := by
  obtain ⟨v, hv, _, hq⟩ := tx_power_ladder_upward dbm hhi
  refine ⟨⟨v, ?_, hq hlo⟩, ?_, ?_⟩
  · simp [ruuvi_interface_communication_ble4_advertising_tx_power_set, hv, State.issue]
  · have h5 : tx_power_ladder (-5) = some (-4) := by decide
    simp [ruuvi_interface_communication_ble4_advertising_tx_power_set, h5, State.issue]
  · have h4 : tx_power_ladder 4 = some 4 := by decide
    simp [ruuvi_interface_communication_ble4_advertising_tx_power_set, h4, State.issue]

/-- Witness of the amended C9: -30 dBm. -/
theorem C9_tx_power_rounds_up_witness :
    (-40 ≤ (-30 : Int) ∧ (-30 : Int) ≤ 4) ∧
    ((∃ v, (ruuvi_interface_communication_ble4_advertising_tx_power_set example_platform
          example_first (-30) 0).2.calls =
        StackCall.sd_ble_gap_tx_power_set BLE_GAP_TX_POWER_ROLE_ADV example_first.m_adv_handle v ::
          example_first.calls ∧
      quantizes_upward (-30) v) ∧
    (ruuvi_interface_communication_ble4_advertising_tx_power_set example_platform example_first
        (-5) 0).2.calls =
      StackCall.sd_ble_gap_tx_power_set BLE_GAP_TX_POWER_ROLE_ADV example_first.m_adv_handle
        (-4) :: example_first.calls ∧
    (ruuvi_interface_communication_ble4_advertising_tx_power_set example_platform example_first
        4 0).2.calls =
      StackCall.sd_ble_gap_tx_power_set BLE_GAP_TX_POWER_ROLE_ADV example_first.m_adv_handle
        4 :: example_first.calls) :=
  ⟨by decide, C9_tx_power_rounds_up example_platform example_first (-30) 0 (by decide)
    (by decide)⟩

/-- Counterexample to C10 as stated: a request of 0 dBm, which does not exceed
4, returns `RUUVI_DRIVER_ERROR_INVALID_PARAM` after the hardware call was issued
with 0 dBm, when the status of that call translates to it: stack status
`NRF_ERROR_INVALID_PARAM` under a translation that maps it to the driver status,
and stack status 16 under the identity. -/
theorem C10_invalid_param_below_limit_counterexample :
    (0 : Int) ≤ 4 ∧
    (ruuvi_interface_communication_ble4_advertising_tx_power_set example_invalid_param_platform
      initial_state 0 NRF_ERROR_INVALID_PARAM).1 = RUUVI_DRIVER_ERROR_INVALID_PARAM ∧
    tx_power_calls (ruuvi_interface_communication_ble4_advertising_tx_power_set
      example_invalid_param_platform initial_state 0 NRF_ERROR_INVALID_PARAM).2.calls = [0] ∧
    (ruuvi_interface_communication_ble4_advertising_tx_power_set example_platform
      initial_state 0 16).1 = RUUVI_DRIVER_ERROR_INVALID_PARAM ∧
    tx_power_calls (ruuvi_interface_communication_ble4_advertising_tx_power_set
      example_platform initial_state 0 16).2.calls = [0] := by
  decide

/-- Claim C10, amended: `tx_power_set` rejects a request itself, returning
`RUUVI_DRIVER_ERROR_INVALID_PARAM` without any call and with the state as it
was, exactly when the request exceeds 4; for every request of at most 4 it
issues exactly one hardware call, whose value is a member of the ladder, and
returns the translation of the status of that call, whatever that is. -/
theorem C10_tx_power_set_guard (P : Platform) (s : State) (dbm : Int) (power_err : Nat) :
    let r := ruuvi_interface_communication_ble4_advertising_tx_power_set P s dbm power_err
    (4 < dbm → r = (RUUVI_DRIVER_ERROR_INVALID_PARAM, s)) ∧
    (dbm ≤ 4 → ∃ v ∈ tx_power_levels,
      r = (P.ruuvi_nrf5_sdk15_to_ruuvi_error power_err,
        s.issue (StackCall.sd_ble_gap_tx_power_set BLE_GAP_TX_POWER_ROLE_ADV s.m_adv_handle v)) ∧
      r.2.calls.length = s.calls.length + 1 ∧
      tx_power_calls r.2.calls = v :: tx_power_calls s.calls) ∧
    (r = (RUUVI_DRIVER_ERROR_INVALID_PARAM, s) ↔ 4 < dbm) ∧
    (r.2.calls = s.calls ↔ 4 < dbm) := by
  intro r
  have hreject : 4 < dbm → r = (RUUVI_DRIVER_ERROR_INVALID_PARAM, s) := by
    intro h
    have hnone : tx_power_ladder dbm = none := by
      unfold tx_power_ladder
      split_ifs <;> first | rfl | omega
    simp [r, ruuvi_interface_communication_ble4_advertising_tx_power_set, hnone]
  have hissue : dbm ≤ 4 → ∃ v ∈ tx_power_levels,
      r = (P.ruuvi_nrf5_sdk15_to_ruuvi_error power_err,
        s.issue (StackCall.sd_ble_gap_tx_power_set BLE_GAP_TX_POWER_ROLE_ADV s.m_adv_handle v)) ∧
      r.2.calls.length = s.calls.length + 1 ∧
      tx_power_calls r.2.calls = v :: tx_power_calls s.calls := by
    intro h
    obtain ⟨v, hv, hmem, _⟩ := tx_power_ladder_upward dbm h
    refine ⟨v, hmem, ?_⟩
    simp [r, ruuvi_interface_communication_ble4_advertising_tx_power_set, hv, State.issue,
      tx_power_calls]
  have hcalls : r.2.calls = s.calls → 4 < dbm := by
    intro hc
    by_contra hle
    obtain ⟨_, _, _, hlen, _⟩ := hissue (by omega)
    rw [hc] at hlen
    omega
  refine ⟨hreject, hissue, ⟨fun h => hcalls (by rw [h]), hreject⟩, hcalls, ?_⟩
  intro h
  rw [hreject h]

/-- Witness of the amended C10: 5 dBm is rejected, -128 dBm is issued. -/
theorem C10_tx_power_set_guard_witness :
    ((4 : Int) < 5 ∧ (-128 : Int) ≤ 4) ∧
    ruuvi_interface_communication_ble4_advertising_tx_power_set example_platform example_first
        5 0 = (RUUVI_DRIVER_ERROR_INVALID_PARAM, example_first) ∧
    ∃ v ∈ tx_power_levels,
      ruuvi_interface_communication_ble4_advertising_tx_power_set example_platform example_first
          (-128) 7 =
        (example_platform.ruuvi_nrf5_sdk15_to_ruuvi_error 7,
          example_first.issue (StackCall.sd_ble_gap_tx_power_set BLE_GAP_TX_POWER_ROLE_ADV
            example_first.m_adv_handle v)) ∧
      (ruuvi_interface_communication_ble4_advertising_tx_power_set example_platform example_first
          (-128) 7).2.calls.length = example_first.calls.length + 1 ∧
      tx_power_calls (ruuvi_interface_communication_ble4_advertising_tx_power_set
          example_platform example_first (-128) 7).2.calls =
        v :: tx_power_calls example_first.calls :=
  ⟨by decide,
    (C10_tx_power_set_guard example_platform example_first 5 0).1 (by decide),
    (C10_tx_power_set_guard example_platform example_first (-128) 7).2.1 (by decide)⟩

/-! ## Lifecycle: uninit and start -/

/-- A bitwise or of two status words is zero exactly when both are zero. -/
theorem lor_eq_zero (a b : Nat) : a ||| b = 0 ↔ a = 0 ∧ b = 0 := by
  constructor
  · intro h
    have hbit : ∀ i, a.testBit i = false ∧ b.testBit i = false := by
      intro i
      have := congrArg (fun n => n.testBit i) h
      simpa [Nat.testBit_or] using this
    exact ⟨Nat.eq_of_testBit_eq (fun i => by simp [(hbit i).1]),
      Nat.eq_of_testBit_eq (fun i => by simp [(hbit i).2])⟩
  · rintro ⟨rfl, rfl⟩
    rfl

/-- Claim C13: for every prior state and whatever the stop call and the radio
release return, after `uninit` both flags are false, the advertising parameters
and the controller state are zero and the table of the channel passed in is
cleared; the value returned is the radio-release result and does not depend on
the result of the stop call. -/
theorem C13_uninit_cleans_up (s : State) (channel stop_err stop_err2 radio_err : Nat) :
    let r := ruuvi_interface_communication_ble4_advertising_uninit s channel stop_err radio_err
    r.1 = radio_err ∧
    r.2.m_advertisement_is_init = false ∧
    r.2.m_advertising = false ∧
    r.2.m_adv_params = zero_adv_params ∧
    r.2.m_adv_state = zero_adv_state ∧
    r.2.channels channel = zero_channel ∧
    ruuvi_interface_communication_ble4_advertising_uninit s channel stop_err2 radio_err = r := by
  cases h : s.m_advertising <;>
    simp [ruuvi_interface_communication_ble4_advertising_uninit, h, State.issue,
      RUUVI_DRIVER_SUCCESS]

/-- Claim C15: `start` issues the configure call and then the start call; with a
translation that maps exactly `NRF_SUCCESS` to success it returns success if and
only if both calls returned `NRF_SUCCESS`; the advertising flag is set when it
returns success and keeps its prior value otherwise. -/
theorem C15_start_result (P : Platform) (s : State) (cfg : ConfigureResult) (start_err : Nat)
    (htr : ∀ e, P.ruuvi_nrf5_sdk15_to_ruuvi_error e = RUUVI_DRIVER_SUCCESS ↔ e = NRF_SUCCESS) :
    let r := ruuvi_interface_communication_ble4_advertising_start P s cfg start_err
    r.2.calls =
      StackCall.sd_ble_gap_adv_start cfg.handle RUUVI_NRF5_SDK15_BLE4_STACK_CONN_TAG ::
        StackCall.sd_ble_gap_adv_set_configure s.m_adv_handle none (some s.m_adv_params) ::
          s.calls ∧
    (r.1 = RUUVI_DRIVER_SUCCESS ↔ cfg.err = NRF_SUCCESS ∧ start_err = NRF_SUCCESS) ∧
    (r.1 = RUUVI_DRIVER_SUCCESS → r.2.m_advertising = true) ∧
    (r.1 ≠ RUUVI_DRIVER_SUCCESS → r.2.m_advertising = s.m_advertising) := by
  intro r
  have hr1 : r.1 = RUUVI_DRIVER_SUCCESS ||| cfg.err |||
      P.ruuvi_nrf5_sdk15_to_ruuvi_error start_err := rfl
  have hiff : r.1 = RUUVI_DRIVER_SUCCESS ↔ cfg.err = NRF_SUCCESS ∧ start_err = NRF_SUCCESS := by
    rw [hr1]
    simp only [RUUVI_DRIVER_SUCCESS, Nat.zero_or, lor_eq_zero]
    have := htr start_err
    simp only [RUUVI_DRIVER_SUCCESS] at this
    rw [this]
    simp [NRF_SUCCESS]
  refine ⟨?_, hiff, ?_, ?_⟩
  · by_cases hs : RUUVI_DRIVER_SUCCESS = RUUVI_DRIVER_SUCCESS ||| cfg.err |||
        P.ruuvi_nrf5_sdk15_to_ruuvi_error start_err <;>
      simp only [r, ruuvi_interface_communication_ble4_advertising_start, State.issue] <;>
      split <;> rfl
  · intro h
    have hs : RUUVI_DRIVER_SUCCESS = RUUVI_DRIVER_SUCCESS ||| cfg.err |||
        P.ruuvi_nrf5_sdk15_to_ruuvi_error start_err := by rw [← hr1, h]
    simp only [r, ruuvi_interface_communication_ble4_advertising_start, State.issue]
    rw [if_pos hs]
  · intro h
    have hs : ¬ RUUVI_DRIVER_SUCCESS = RUUVI_DRIVER_SUCCESS ||| cfg.err |||
        P.ruuvi_nrf5_sdk15_to_ruuvi_error start_err := by
      intro e; exact h (by rw [hr1, ← e])
    simp only [r, ruuvi_interface_communication_ble4_advertising_start, State.issue]
    rw [if_neg hs]

/-- Witness of C15: the identity translation, both calls accepted. -/
theorem C15_start_result_witness :
    (∀ e, example_platform.ruuvi_nrf5_sdk15_to_ruuvi_error e = RUUVI_DRIVER_SUCCESS ↔
      e = NRF_SUCCESS) ∧
    ((ruuvi_interface_communication_ble4_advertising_start example_platform example_initialized
        ⟨0, 0⟩ 0).2.calls =
      StackCall.sd_ble_gap_adv_start (⟨0, 0⟩ : ConfigureResult).handle
          RUUVI_NRF5_SDK15_BLE4_STACK_CONN_TAG ::
        StackCall.sd_ble_gap_adv_set_configure example_initialized.m_adv_handle none
          (some example_initialized.m_adv_params) :: example_initialized.calls ∧
    ((ruuvi_interface_communication_ble4_advertising_start example_platform example_initialized
        ⟨0, 0⟩ 0).1 = RUUVI_DRIVER_SUCCESS ↔
      (⟨0, 0⟩ : ConfigureResult).err = NRF_SUCCESS ∧ 0 = NRF_SUCCESS) ∧
    ((ruuvi_interface_communication_ble4_advertising_start example_platform example_initialized
        ⟨0, 0⟩ 0).1 = RUUVI_DRIVER_SUCCESS →
      (ruuvi_interface_communication_ble4_advertising_start example_platform example_initialized
        ⟨0, 0⟩ 0).2.m_advertising = true) ∧
    ((ruuvi_interface_communication_ble4_advertising_start example_platform example_initialized
        ⟨0, 0⟩ 0).1 ≠ RUUVI_DRIVER_SUCCESS →
      (ruuvi_interface_communication_ble4_advertising_start example_platform example_initialized
        ⟨0, 0⟩ 0).2.m_advertising = example_initialized.m_advertising)) :=
  ⟨fun _ => Iff.rfl,
    C15_start_result example_platform example_initialized ⟨0, 0⟩ 0 (fun _ => Iff.rfl)⟩

/-! ## The reconfigure path, the stop handle and the interval -/

/-- The static `update_settings` only issues calls and takes the handle the
configure call leaves: parameters, controller state, flags and buffers stay. -/
theorem update_settings_keeps (P : Platform) (s : State) (stop_err : Nat) (cfg : ConfigureResult)
    (start_err : Nat) :
    let r := update_settings P s stop_err cfg start_err
    r.2.m_adv_params = s.m_adv_params ∧ r.2.m_adv_state = s.m_adv_state ∧
    r.2.m_advertisement_is_init = s.m_advertisement_is_init ∧
    r.2.m_advertising = s.m_advertising := by
  cases hi : s.m_advertisement_is_init <;> cases ha : s.m_advertising <;>
    simp [update_settings, hi, ha, State.issue]

/-- Evaluation for C16: on the initialised, advertising state `tx_interval_set`
returns success although the stop call failed, and also although the configure
call failed, because the status of the restart call replaces the combined
status instead of being or-ed into it. -/
theorem C16_restart_status_replaces :
    example_advertising.m_advertisement_is_init = true ∧
    example_advertising.m_advertising = true ∧
    (ruuvi_interface_communication_ble4_advertising_tx_interval_set example_platform
      example_advertising 1000 8 ⟨NRF_SUCCESS, 0⟩ NRF_SUCCESS).1 = RUUVI_DRIVER_SUCCESS ∧
    (ruuvi_interface_communication_ble4_advertising_tx_interval_set example_platform
      example_advertising 1000 NRF_SUCCESS ⟨7, 0⟩ NRF_SUCCESS).1 = RUUVI_DRIVER_SUCCESS ∧
    example_platform.ruuvi_nrf5_sdk15_to_ruuvi_error 8 ≠ RUUVI_DRIVER_SUCCESS ∧
    example_platform.ruuvi_nrf5_sdk15_to_ruuvi_error 7 ≠ RUUVI_DRIVER_SUCCESS := by
  decide

/-- Evaluation for C17: `stop` makes its stop call on
`RUUVI_NRF5_SDK15_BLE4_STACK_CONN_TAG` whatever `m_adv_handle` holds, while
`uninit` and `update_settings` make theirs on `m_adv_handle`; on the advertising
example state the handle is 0 and the call of `stop` is made on 1. The flag is
cleared when the translated status is success and kept otherwise. -/
theorem C17_stop_handle (P : Platform) (s : State) (channel stop_err radio_err : Nat)
    (cfg : ConfigureResult) (start_err : Nat) :
    stop_calls (ruuvi_interface_communication_ble4_advertising_stop P s stop_err).2.calls =
      RUUVI_NRF5_SDK15_BLE4_STACK_CONN_TAG :: stop_calls s.calls ∧
    stop_calls (ruuvi_interface_communication_ble4_advertising_uninit
        { s with m_advertising := true } channel stop_err radio_err).2.calls =
      s.m_adv_handle :: stop_calls s.calls ∧
    stop_calls (update_settings P { s with m_advertising := true, m_advertisement_is_init := true }
        stop_err cfg start_err).2.calls = s.m_adv_handle :: stop_calls s.calls ∧
    (example_advertising.m_adv_handle = 0 ∧
      stop_calls (ruuvi_interface_communication_ble4_advertising_stop example_platform
        example_advertising NRF_SUCCESS).2.calls = [1]) ∧
    (ruuvi_interface_communication_ble4_advertising_stop P s stop_err).2.m_advertising =
      (if P.ruuvi_nrf5_sdk15_to_ruuvi_error stop_err = RUUVI_DRIVER_SUCCESS then false
        else s.m_advertising) := by
  refine ⟨?_, ?_, ?_, by decide, ?_⟩
  · by_cases h : RUUVI_DRIVER_SUCCESS =
        RUUVI_DRIVER_SUCCESS ||| P.ruuvi_nrf5_sdk15_to_ruuvi_error stop_err <;>
      simp only [ruuvi_interface_communication_ble4_advertising_stop, State.issue] <;>
      split <;> rfl
  · simp [ruuvi_interface_communication_ble4_advertising_uninit, State.issue, stop_calls]
  · simp [update_settings, State.issue, stop_calls]
  · simp only [ruuvi_interface_communication_ble4_advertising_stop, State.issue,
      RUUVI_DRIVER_SUCCESS, Nat.zero_or]
    by_cases h : P.ruuvi_nrf5_sdk15_to_ruuvi_error stop_err = 0
    · simp [h]
    · have h' : ¬ 0 = P.ruuvi_nrf5_sdk15_to_ruuvi_error stop_err := fun e => h e.symm
      simp [h, h']

/-- Claim C20: for `ms` in [100, 10000] `tx_interval_set` stores in the interval
parameter the value `ms * 1000 / 625` (integer division), the product
`ms * 1000` is below `2 ^ 32`, the stored value lies in [160, 16000], and a
larger `ms` in the range never stores a smaller value. -/
theorem C20_interval_conversion (P : Platform) (s : State) (ms ms2 stop_err : Nat)
    (cfg : ConfigureResult) (start_err : Nat)
    (hlo : 100 ≤ ms) (hle : ms ≤ ms2) (hhi : ms2 ≤ 10000) :
    let stored := (ruuvi_interface_communication_ble4_advertising_tx_interval_set P s ms
      stop_err cfg start_err).2.m_adv_params.interval
    let stored2 := (ruuvi_interface_communication_ble4_advertising_tx_interval_set P s ms2
      stop_err cfg start_err).2.m_adv_params.interval
    stored = ms * 1000 / 625 ∧ stored = MSEC_TO_UNITS ms UNIT_0_625_MS ∧
    ms * 1000 < 2 ^ 32 ∧ 160 ≤ stored ∧ stored ≤ 16000 ∧ stored ≤ stored2 := by
  intro stored stored2
  have conv : ∀ m, 100 ≤ m → m ≤ 10000 →
      (ruuvi_interface_communication_ble4_advertising_tx_interval_set P s m stop_err cfg
        start_err).2.m_adv_params.interval = m * 1000 / 625 := by
    intro m h1 h2
    have h : ¬ (MIN_ADV_INTERVAL_MS > m ∨ MAX_ADV_INTERVAL_MS < m) := by
      simp only [MIN_ADV_INTERVAL_MS, MAX_ADV_INTERVAL_MS]; omega
    have hmod : m * 1000 % 2 ^ 32 = m * 1000 := Nat.mod_eq_of_lt (by omega)
    simp only [ruuvi_interface_communication_ble4_advertising_tx_interval_set, h, if_false]
    rw [(update_settings_keeps P _ stop_err cfg start_err).1]
    simp only [MSEC_TO_UNITS, UNIT_0_625_MS, hmod]
  have e1 : stored = ms * 1000 / 625 := conv ms hlo (by omega)
  have e2 : stored2 = ms2 * 1000 / 625 := conv ms2 (by omega) hhi
  have hmod : ms * 1000 % 2 ^ 32 = ms * 1000 := Nat.mod_eq_of_lt (by omega)
  refine ⟨e1, ?_, by omega, ?_, ?_, ?_⟩
  · rw [e1]; simp only [MSEC_TO_UNITS, UNIT_0_625_MS, hmod]
  · rw [e1]; omega
  · rw [e1]; omega
  · rw [e1, e2]; omega

/-- Witness of C20: 100 ms and 10000 ms, the ends of the range. -/
theorem C20_interval_conversion_witness :
    (100 ≤ 100 ∧ 100 ≤ 10000 ∧ 10000 ≤ 10000) ∧
    ((ruuvi_interface_communication_ble4_advertising_tx_interval_set example_platform
        example_initialized 100 0 ⟨0, 0⟩ 0).2.m_adv_params.interval = 100 * 1000 / 625 ∧
      (ruuvi_interface_communication_ble4_advertising_tx_interval_set example_platform
        example_initialized 100 0 ⟨0, 0⟩ 0).2.m_adv_params.interval =
          MSEC_TO_UNITS 100 UNIT_0_625_MS ∧
      100 * 1000 < 2 ^ 32 ∧
      160 ≤ (ruuvi_interface_communication_ble4_advertising_tx_interval_set example_platform
        example_initialized 100 0 ⟨0, 0⟩ 0).2.m_adv_params.interval ∧
      (ruuvi_interface_communication_ble4_advertising_tx_interval_set example_platform
        example_initialized 100 0 ⟨0, 0⟩ 0).2.m_adv_params.interval ≤ 16000 ∧
      (ruuvi_interface_communication_ble4_advertising_tx_interval_set example_platform
        example_initialized 100 0 ⟨0, 0⟩ 0).2.m_adv_params.interval ≤
        (ruuvi_interface_communication_ble4_advertising_tx_interval_set example_platform
          example_initialized 10000 0 ⟨0, 0⟩ 0).2.m_adv_params.interval) :=
  ⟨by decide, C20_interval_conversion example_platform example_initialized 100 10000 0 ⟨0, 0⟩ 0
    (by decide) (by decide) (by decide)⟩

/-! ## Scan response and init -/

/-- The name field takes two octets and as much of the name as the room allows. -/
theorem name_field_length (gap_name : List Nat) (room : Nat) :
    (name_field gap_name room).length = 2 + min gap_name.length room := by
  unfold name_field
  split
  · simp [ad_structure]; omega
  · simp [ad_structure]; omega

/-- The name field built for the room it took is the same field. -/
theorem name_field_refit (gap_name : List Nat) (room : Nat) :
    name_field gap_name (min gap_name.length room) = name_field gap_name room := by
  unfold name_field
  by_cases h : gap_name.length ≤ room
  · simp [h, Nat.min_eq_left h]
  · have h' : room ≤ gap_name.length := by omega
    simp [h, Nat.min_eq_right h']

/-- The field of the fixed service identifier takes 18 octets. -/
theorem nus_uuid_field_length : nus_uuid_field.length = 18 := by
  decide

/-- The modelled encoder on a scan-response structure, step by step. -/
theorem encode_scan_response (gap_name buf : List Nat) (with_name advertise_nus : Bool)
    (max_size : Nat) :
    ble_advdata_encode gap_name (scan_response_advdata with_name advertise_nus) buf max_size =
      { err := (if with_name then
            encode_append max_size
              (if advertise_nus then encode_append max_size (NRF_SUCCESS, []) nus_uuid_field
                else (NRF_SUCCESS, []))
              (name_field gap_name (max_size -
                (if advertise_nus then encode_append max_size (NRF_SUCCESS, []) nus_uuid_field
                  else (NRF_SUCCESS, [])).2.length - 2))
          else (if advertise_nus then encode_append max_size (NRF_SUCCESS, []) nus_uuid_field
            else (NRF_SUCCESS, []))).1
        buf := (if with_name then
            encode_append max_size
              (if advertise_nus then encode_append max_size (NRF_SUCCESS, []) nus_uuid_field
                else (NRF_SUCCESS, []))
              (name_field gap_name (max_size -
                (if advertise_nus then encode_append max_size (NRF_SUCCESS, []) nus_uuid_field
                  else (NRF_SUCCESS, [])).2.length - 2))
          else (if advertise_nus then encode_append max_size (NRF_SUCCESS, []) nus_uuid_field
            else (NRF_SUCCESS, []))).2 ++ buf.drop (if with_name then
            encode_append max_size
              (if advertise_nus then encode_append max_size (NRF_SUCCESS, []) nus_uuid_field
                else (NRF_SUCCESS, []))
              (name_field gap_name (max_size -
                (if advertise_nus then encode_append max_size (NRF_SUCCESS, []) nus_uuid_field
                  else (NRF_SUCCESS, [])).2.length - 2))
          else (if advertise_nus then encode_append max_size (NRF_SUCCESS, []) nus_uuid_field
            else (NRF_SUCCESS, []))).2.length
        len := (if with_name then
            encode_append max_size
              (if advertise_nus then encode_append max_size (NRF_SUCCESS, []) nus_uuid_field
                else (NRF_SUCCESS, []))
              (name_field gap_name (max_size -
                (if advertise_nus then encode_append max_size (NRF_SUCCESS, []) nus_uuid_field
                  else (NRF_SUCCESS, [])).2.length - 2))
          else (if advertise_nus then encode_append max_size (NRF_SUCCESS, []) nus_uuid_field
            else (NRF_SUCCESS, []))).2.length } := by
  cases with_name <;> cases advertise_nus <;>
    simp [ble_advdata_encode, scan_response_advdata, BLE_ADVDATA_NO_NAME, BLE_ADVDATA_FULL_NAME,
      m_adv_uuids, nus_uuid_field]

/-- The modelled encoder on a scan-response structure: with the capacity of a
buffer it succeeds, and encoding again with the length it reported as capacity
gives the same result. -/
theorem encode_scan_response_refit (gap_name buf : List Nat) (with_name advertise_nus : Bool) :
    (ble_advdata_encode gap_name (scan_response_advdata with_name advertise_nus) buf
      BLE_GAP_ADV_SET_DATA_SIZE_MAX).err = NRF_SUCCESS ∧
    ble_advdata_encode gap_name (scan_response_advdata with_name advertise_nus) buf
      (ble_advdata_encode gap_name (scan_response_advdata with_name advertise_nus) buf
        BLE_GAP_ADV_SET_DATA_SIZE_MAX).len =
      ble_advdata_encode gap_name (scan_response_advdata with_name advertise_nus) buf
        BLE_GAP_ADV_SET_DATA_SIZE_MAX := by
  have hu := nus_uuid_field_length
  simp only [encode_scan_response]
  generalize nus_uuid_field = U at hu
  have h29 : ¬ 31 < 2 + min gap_name.length 29 := by omega
  have h11 : ¬ 31 < 18 + (2 + min gap_name.length 11) := by omega
  have hm29 : min gap_name.length (min gap_name.length 29) = min gap_name.length 29 := by omega
  have hm11 : min gap_name.length (min gap_name.length 11) = min gap_name.length 11 := by omega
  have hs11 : 18 + (2 + min gap_name.length 11) - 18 - 2 = min gap_name.length 11 := by omega
  have hl11 : ¬ 18 + (2 + min gap_name.length 11) < 18 := by omega
  cases with_name <;> cases advertise_nus <;>
    simp [encode_append, NRF_SUCCESS, BLE_GAP_ADV_SET_DATA_SIZE_MAX, name_field_length, hu, h29,
      h11, hm29, hm11, hs11, hl11, name_field_refit]

/-- What `scan_response_setup` leaves in the two scan buffers and returns, in
terms of the structure it encodes and the device name the stack then holds. -/
theorem scan_response_setup_result (P : Platform) (s : State) (name : Option (List Nat))
    (advertise_nus : Bool) (name_err : Nat) :
    let r := ruuvi_interface_communication_ble4_advertising_scan_response_setup P s name
      advertise_nus name_err
    let a := scan_response_advdata name.isSome advertise_nus
    let e0 := P.ble_advdata_encode r.2.gap_device_name a zero_buffer BLE_GAP_ADV_SET_DATA_SIZE_MAX
    let e1 := P.ble_advdata_encode r.2.gap_device_name a zero_buffer e0.len
    r.2.m_scan0 = e0.buf ∧ r.2.m_scan1 = e1.buf ∧
    r.1 = P.ruuvi_nrf5_sdk15_to_ruuvi_error
      ((if name.isSome then RUUVI_DRIVER_SUCCESS ||| name_err else RUUVI_DRIVER_SUCCESS) |||
        e0.err ||| e1.err) := by
  cases name <;> cases advertise_nus <;> by_cases h : name_err = NRF_SUCCESS <;>
    simp [ruuvi_interface_communication_ble4_advertising_scan_response_setup,
      scan_response_advdata, State.issue, h]

/-- A call of `data_set`, accepted or rejected, leaves the bytes of both scan
buffers as they were. -/
theorem data_set_keeps_scan (P : Platform) (s : State) (data : Option (List Nat)) (n : Nat)
    (cfg : ConfigureResult) :
    (ruuvi_interface_communication_ble4_advertising_data_set P s data n cfg).2.m_scan0 =
      s.m_scan0 ∧
    (ruuvi_interface_communication_ble4_advertising_data_set P s data n cfg).2.m_scan1 =
      s.m_scan1 := by
  cases data with
  | none => simp [ruuvi_interface_communication_ble4_advertising_data_set]
  | some d =>
    by_cases h : 24 < n
    · simp [ruuvi_interface_communication_ble4_advertising_data_set, h]
    · obtain ⟨_, _, hb, _⟩ := data_set_valid P s d n cfg (by omega)
      have h0 := hb Slot.m_scan0 (by cases s.advertisement_odd <;> simp [select_advertisement])
      have h1 := hb Slot.m_scan1 (by cases s.advertisement_odd <;> simp [select_advertisement])
      exact ⟨h0, h1⟩

/-- Claim C18: for every name (NULL or not) and every `advertise_nus`, after
`scan_response_setup` both scan buffers hold the same bytes, those the modelled
encoder writes for the scan-response structure over a zeroed buffer (the second
time with the length of the first encoding as capacity); and `data_set` never
changes the bytes of either scan buffer. -/
theorem C18_scan_slots_consistent (translate : Nat → Nat) (s : State)
    (name : Option (List Nat)) (advertise_nus : Bool) (name_err : Nat)
    (P : Platform) (data : Option (List Nat)) (n : Nat) (cfg : ConfigureResult) :
    let r := ruuvi_interface_communication_ble4_advertising_scan_response_setup
      (sdk15_platform translate) s name advertise_nus name_err
    let a := scan_response_advdata name.isSome advertise_nus
    let e0 := ble_advdata_encode r.2.gap_device_name a zero_buffer BLE_GAP_ADV_SET_DATA_SIZE_MAX
    let e1 := ble_advdata_encode r.2.gap_device_name a zero_buffer e0.len
    r.2.m_scan0 = r.2.m_scan1 ∧ r.2.m_scan0 = e0.buf ∧ r.2.m_scan1 = e1.buf ∧
    e0.err = NRF_SUCCESS ∧ e1.err = NRF_SUCCESS ∧
    (ruuvi_interface_communication_ble4_advertising_data_set P s data n cfg).2.m_scan0 =
      s.m_scan0 ∧
    (ruuvi_interface_communication_ble4_advertising_data_set P s data n cfg).2.m_scan1 =
      s.m_scan1 := by
  intro r a e0 e1
  obtain ⟨h0, h1, _⟩ := scan_response_setup_result (sdk15_platform translate) s name
    advertise_nus name_err
  obtain ⟨hok, hre⟩ := encode_scan_response_refit r.2.gap_device_name zero_buffer name.isSome
    advertise_nus
  have he : e1 = e0 := hre
  have h0' : r.2.m_scan0 = e0.buf := h0
  have h1' : r.2.m_scan1 = e1.buf := h1
  refine ⟨by rw [h0', h1', he], h0', h1', hok, by rw [he]; exact hok, ?_⟩
  exact data_set_keeps_scan P s data n cfg

/-- Counterexample to C12 as stated: `init` on a state whose scan buffer
`m_scan0` holds an encoded name and whose scan lengths are 31 returns success
and leaves that buffer and those lengths as they were. -/
theorem C12_scan_not_reset_counterexample :
    (ruuvi_interface_communication_ble4_advertising_init example_platform example_scanned 1
      0).1 = RUUVI_DRIVER_SUCCESS ∧
    (ruuvi_interface_communication_ble4_advertising_init example_platform example_scanned 1
      0).2.m_scan0 ≠ zero_buffer ∧
    (ruuvi_interface_communication_ble4_advertising_init example_platform example_scanned 1
      0).2.m_scan0_len = 31 ∧
    (ruuvi_interface_communication_ble4_advertising_init example_platform example_scanned 1
      0).2.m_scan1_len = 31 := by
  decide

/-- Claim C12, amended: after every `init` that returns success, from any prior
state, both advertisement buffers are zero-filled and their two length
variables are 0. -/
theorem C12_init_resets_advertisement (P : Platform) (s : State) (channel radio_err : Nat)
    (h : (ruuvi_interface_communication_ble4_advertising_init P s channel radio_err).1 =
      RUUVI_DRIVER_SUCCESS) :
    let r := ruuvi_interface_communication_ble4_advertising_init P s channel radio_err
    r.2.m_advertisement0 = zero_buffer ∧ r.2.m_advertisement1 = zero_buffer ∧
    r.2.m_adv0_len = 0 ∧ r.2.m_adv1_len = 0 := by
  intro r
  by_cases hret : s.m_advertisement_is_init = false ∧
      RUUVI_DRIVER_SUCCESS ≠ RUUVI_DRIVER_SUCCESS ||| radio_err
  · exfalso
    obtain ⟨hi, hne⟩ := hret
    apply hne
    have : (ruuvi_interface_communication_ble4_advertising_init P s channel radio_err).1 =
        RUUVI_DRIVER_SUCCESS ||| radio_err := by
      simp [ruuvi_interface_communication_ble4_advertising_init, hi, State.issue, hne]
    rw [← this, h]
  · cases hi : s.m_advertisement_is_init
    · have he : RUUVI_DRIVER_SUCCESS = RUUVI_DRIVER_SUCCESS ||| radio_err := by
        by_contra hne
        exact hret ⟨hi, hne⟩
      simp [r, ruuvi_interface_communication_ble4_advertising_init, hi, State.issue, ← he]
    · simp [r, ruuvi_interface_communication_ble4_advertising_init, hi, State.issue]

/-- Witness of the amended C12: `init` on the state `example_scanned`. -/
theorem C12_init_resets_advertisement_witness :
    (ruuvi_interface_communication_ble4_advertising_init example_platform example_scanned 1
      0).1 = RUUVI_DRIVER_SUCCESS ∧
    ((ruuvi_interface_communication_ble4_advertising_init example_platform example_scanned 1
        0).2.m_advertisement0 = zero_buffer ∧
      (ruuvi_interface_communication_ble4_advertising_init example_platform example_scanned 1
        0).2.m_advertisement1 = zero_buffer ∧
      (ruuvi_interface_communication_ble4_advertising_init example_platform example_scanned 1
        0).2.m_adv0_len = 0 ∧
      (ruuvi_interface_communication_ble4_advertising_init example_platform example_scanned 1
        0).2.m_adv1_len = 0) :=
  ⟨by decide, C12_init_resets_advertisement example_platform example_scanned 1 0 (by decide)⟩

/-! ## The initialised flag -/

/-- Counterexample to C11 as stated: on the state left by `uninit`,
`manufacturer_id_set`, `type_set`, `tx_power_set`, `scan_response_setup`,
`data_set` and `start` all return success, not
`RUUVI_DRIVER_ERROR_INVALID_STATE`. -/
theorem C11_unguarded_after_uninit_counterexample :
    example_uninitialized.m_advertisement_is_init = false ∧
    RUUVI_DRIVER_SUCCESS ≠ RUUVI_DRIVER_ERROR_INVALID_STATE ∧
    (ruuvi_interface_communication_ble4_advertising_manufacturer_id_set example_uninitialized
      0x0499).1 = RUUVI_DRIVER_SUCCESS ∧
    (ruuvi_interface_communication_ble4_advertising_type_set example_uninitialized
      CONNECTABLE_SCANNABLE).1 = RUUVI_DRIVER_SUCCESS ∧
    (ruuvi_interface_communication_ble4_advertising_tx_power_set example_platform
      example_uninitialized 4 NRF_SUCCESS).1 = RUUVI_DRIVER_SUCCESS ∧
    (ruuvi_interface_communication_ble4_advertising_scan_response_setup example_platform
      example_uninitialized (some [82]) true NRF_SUCCESS).1 = RUUVI_DRIVER_SUCCESS ∧
    (ruuvi_interface_communication_ble4_advertising_data_set example_platform
      example_uninitialized (some [1, 2]) 2 ⟨NRF_SUCCESS, 0⟩).1 = RUUVI_DRIVER_SUCCESS ∧
    (ruuvi_interface_communication_ble4_advertising_start example_platform
      example_uninitialized ⟨NRF_SUCCESS, 0⟩ NRF_SUCCESS).1 = RUUVI_DRIVER_SUCCESS := by
  decide

/-- Claim C11, amended: after `uninit`, `tx_interval_set` with an in-range
argument returns `RUUVI_DRIVER_ERROR_INVALID_STATE`; the other configuration
calls do not test the initialised flag: `manufacturer_id_set`, `type_set` with
one of the four types, `tx_power_set` with at most 4 dBm, `scan_response_setup`,
`data_set` with data of at most 24 bytes and `start` return success when the
stack calls they issue return `NRF_SUCCESS`. -/
theorem C11_after_uninit (translate : Nat → Nat) (s : State) (channel stop_err radio_err : Nat)
    (ms stop_err2 start_err2 : Nat) (cfg2 : ConfigureResult) (id type : Nat) (dbm : Int)
    (name : Option (List Nat)) (advertise_nus : Bool) (data : List Nat) (n handle : Nat)
    (htr : translate NRF_SUCCESS = RUUVI_DRIVER_SUCCESS)
    (hlo : 100 ≤ ms) (hhi : ms ≤ 10000) (htype : type ≤ 3) (hdbm : dbm ≤ 4) (hn : n ≤ 24) :
    let P := sdk15_platform translate
    let u := (ruuvi_interface_communication_ble4_advertising_uninit s channel stop_err
      radio_err).2
    (ruuvi_interface_communication_ble4_advertising_tx_interval_set P u ms stop_err2 cfg2
      start_err2).1 = RUUVI_DRIVER_ERROR_INVALID_STATE ∧
    (ruuvi_interface_communication_ble4_advertising_manufacturer_id_set u id).1 =
      RUUVI_DRIVER_SUCCESS ∧
    (ruuvi_interface_communication_ble4_advertising_type_set u type).1 = RUUVI_DRIVER_SUCCESS ∧
    (ruuvi_interface_communication_ble4_advertising_tx_power_set P u dbm NRF_SUCCESS).1 =
      RUUVI_DRIVER_SUCCESS ∧
    (ruuvi_interface_communication_ble4_advertising_scan_response_setup P u name advertise_nus
      NRF_SUCCESS).1 = RUUVI_DRIVER_SUCCESS ∧
    (ruuvi_interface_communication_ble4_advertising_data_set P u (some data) n
      ⟨NRF_SUCCESS, handle⟩).1 = RUUVI_DRIVER_SUCCESS ∧
    (ruuvi_interface_communication_ble4_advertising_start P u ⟨NRF_SUCCESS, handle⟩
      NRF_SUCCESS).1 = RUUVI_DRIVER_SUCCESS := by
  intro P u
  have hu : u.m_advertisement_is_init = false := by
    cases h : s.m_advertising <;>
      simp [u, ruuvi_interface_communication_ble4_advertising_uninit, h, State.issue]
  refine ⟨?_, rfl, ?_, ?_, ?_, ?_, ?_⟩
  · have h : ¬ (MIN_ADV_INTERVAL_MS > ms ∨ MAX_ADV_INTERVAL_MS < ms) := by
      simp only [MIN_ADV_INTERVAL_MS, MAX_ADV_INTERVAL_MS]; omega
    simp [ruuvi_interface_communication_ble4_advertising_tx_interval_set, h, update_settings, hu]
  · have ht : type = 0 ∨ type = 1 ∨ type = 2 ∨ type = 3 := by omega
    rcases ht with rfl | rfl | rfl | rfl <;>
      simp [ruuvi_interface_communication_ble4_advertising_type_set,
        NONCONNECTABLE_NONSCANNABLE, NONCONNECTABLE_SCANNABLE, CONNECTABLE_NONSCANNABLE,
        CONNECTABLE_SCANNABLE]
  · obtain ⟨v, hv, _, _⟩ := tx_power_ladder_upward dbm hdbm
    simp [ruuvi_interface_communication_ble4_advertising_tx_power_set, hv, P, sdk15_platform,
      htr]
  · obtain ⟨_, _, hr⟩ := scan_response_setup_result P u name advertise_nus NRF_SUCCESS
    obtain ⟨hok, hre⟩ := encode_scan_response_refit
      (ruuvi_interface_communication_ble4_advertising_scan_response_setup P u name advertise_nus
        NRF_SUCCESS).2.gap_device_name zero_buffer name.isSome advertise_nus
    have hok' : (P.ble_advdata_encode _ _ zero_buffer BLE_GAP_ADV_SET_DATA_SIZE_MAX).err =
        NRF_SUCCESS := hok
    have hre' : P.ble_advdata_encode _ _ zero_buffer
        (P.ble_advdata_encode _ _ zero_buffer BLE_GAP_ADV_SET_DATA_SIZE_MAX).len =
          P.ble_advdata_encode _ _ zero_buffer BLE_GAP_ADV_SET_DATA_SIZE_MAX := hre
    rw [hr, hre', hok']
    cases name <;> simpa [RUUVI_DRIVER_SUCCESS, NRF_SUCCESS] using htr
  · rw [(data_set_encoded translate u data n ⟨NRF_SUCCESS, handle⟩ hn).1]
    exact htr
  · simp [ruuvi_interface_communication_ble4_advertising_start, P, sdk15_platform, htr,
      RUUVI_DRIVER_SUCCESS, NRF_SUCCESS]
    simpa [RUUVI_DRIVER_SUCCESS, NRF_SUCCESS] using htr

/-- Witness of the amended C11 on the state left by `uninit` after advertising. -/
theorem C11_after_uninit_witness :
    (id NRF_SUCCESS = RUUVI_DRIVER_SUCCESS ∧ 100 ≤ 1000 ∧ 1000 ≤ 10000 ∧ 3 ≤ 3 ∧
      (4 : Int) ≤ 4 ∧ 2 ≤ 24) ∧
    ((ruuvi_interface_communication_ble4_advertising_tx_interval_set example_platform
        example_uninitialized 1000 0 ⟨0, 0⟩ 0).1 = RUUVI_DRIVER_ERROR_INVALID_STATE ∧
      (ruuvi_interface_communication_ble4_advertising_manufacturer_id_set example_uninitialized
        0x0499).1 = RUUVI_DRIVER_SUCCESS ∧
      (ruuvi_interface_communication_ble4_advertising_type_set example_uninitialized 3).1 =
        RUUVI_DRIVER_SUCCESS ∧
      (ruuvi_interface_communication_ble4_advertising_tx_power_set example_platform
        example_uninitialized 4 NRF_SUCCESS).1 = RUUVI_DRIVER_SUCCESS ∧
      (ruuvi_interface_communication_ble4_advertising_scan_response_setup example_platform
        example_uninitialized (some [82]) true NRF_SUCCESS).1 = RUUVI_DRIVER_SUCCESS ∧
      (ruuvi_interface_communication_ble4_advertising_data_set example_platform
        example_uninitialized (some [1, 2]) 2 ⟨NRF_SUCCESS, 0⟩).1 = RUUVI_DRIVER_SUCCESS ∧
      (ruuvi_interface_communication_ble4_advertising_start example_platform
        example_uninitialized ⟨NRF_SUCCESS, 0⟩ NRF_SUCCESS).1 = RUUVI_DRIVER_SUCCESS) :=
  ⟨by decide,
    C11_after_uninit id example_advertising 1 0 0 1000 0 0 ⟨0, 0⟩ 0x0499 3 4 (some [82]) true
      [1, 2] 2 0 rfl (by decide) (by decide) (by decide) (by decide) (by decide)⟩

/-- Every call keeps "advertising implies initialised", provided a call of
`start` is made on an initialised controller. -/
theorem step_keeps_flags (P : Platform) (s : State) (op : Op)
    (hinv : s.m_advertising = true → s.m_advertisement_is_init = true)
    (hstart : op.is_start = true → s.m_advertisement_is_init = true) :
    (step P s op).m_advertising = true → (step P s op).m_advertisement_is_init = true := by
  cases op with
  | init channel radio_err =>
    intro hadv
    have ha : (ruuvi_interface_communication_ble4_advertising_init P s channel
        radio_err).2.m_advertising = true := hadv
    rw [init_keeps_advertising] at ha
    have hi := hinv ha
    simp [step, ruuvi_interface_communication_ble4_advertising_init, hi]
  | uninit channel stop_err radio_err =>
    cases ha : s.m_advertising <;>
      simp [step, ruuvi_interface_communication_ble4_advertising_uninit, ha, State.issue]
  | tx_interval_set ms stop_err cfg start_err =>
    by_cases h : MIN_ADV_INTERVAL_MS > ms ∨ MAX_ADV_INTERVAL_MS < ms
    · simpa [step, ruuvi_interface_communication_ble4_advertising_tx_interval_set, h] using hinv
    · simp only [step, ruuvi_interface_communication_ble4_advertising_tx_interval_set, h,
        if_false]
      obtain ⟨_, _, k3, k4⟩ := update_settings_keeps P
        { s with
          m_adv_state := { s.m_adv_state with advertisement_interval_ms := ms }
          m_adv_params := { s.m_adv_params with
            interval := MSEC_TO_UNITS ms UNIT_0_625_MS } } stop_err cfg start_err
      rw [k3, k4]
      exact hinv
  | tx_interval_get => exact hinv
  | manufacturer_id_set id => exact hinv
  | data_set data data_length cfg =>
    cases data with
    | none => simpa [step, ruuvi_interface_communication_ble4_advertising_data_set] using hinv
    | some d =>
      by_cases h : 24 < data_length <;> cases ho : s.advertisement_odd <;>
        simpa [step, ruuvi_interface_communication_ble4_advertising_data_set, h, ho,
          State.issue, State.store, select_advertisement] using hinv
  | send message cfg =>
    cases message with
    | none => simpa [step, ruuvi_interface_communication_ble4_advertising_send] using hinv
    | some m =>
      cases ha : s.m_advertising
      · simp [step, ruuvi_interface_communication_ble4_advertising_send, ha]
      · by_cases h : 24 < m.data_length <;> cases ho : s.advertisement_odd <;>
          simpa [step, ruuvi_interface_communication_ble4_advertising_send,
            ruuvi_interface_communication_ble4_advertising_data_set, h, ho, ha,
            State.issue, State.store, select_advertisement] using hinv
  | receive => exact hinv
  | tx_power_set dbm power_err =>
    cases hl : tx_power_ladder dbm <;>
      simpa [step, ruuvi_interface_communication_ble4_advertising_tx_power_set, hl,
        State.issue] using hinv
  | tx_power_get => exact hinv
  | scan_response_setup name advertise_nus name_err =>
    cases name <;> cases advertise_nus <;> by_cases h : name_err = NRF_SUCCESS <;>
      simpa [step, ruuvi_interface_communication_ble4_advertising_scan_response_setup,
        State.issue, h] using hinv
  | type_set type =>
    simp only [step, ruuvi_interface_communication_ble4_advertising_type_set]
    split_ifs <;> exact hinv
  | notify_stop =>
    simp [step, ruuvi_interface_communication_ble4_advertising_notify_stop]
  | start cfg start_err =>
    intro _
    have hi := hstart rfl
    simp only [step, ruuvi_interface_communication_ble4_advertising_start, State.issue]
    split <;> exact hi
  | stop stop_err =>
    simp only [step, ruuvi_interface_communication_ble4_advertising_stop, State.issue]
    split
    · simp
    · exact hinv
  | activity_handler evt =>
    simp only [step, ruuvi_interface_communication_ble4_advertising_activity_handler]
    split_ifs
    · exact hinv
    · split
      · exact hinv
      · exact hinv
    · exact hinv

/-- The invariance of "advertising implies initialised" along a sequence of
calls in which `start` is only called on an initialised controller. -/
theorem run_keeps_flags (P : Platform) (ops : List Op) :
    ∀ s : State, (s.m_advertising = true → s.m_advertisement_is_init = true) →
      start_when_initialized P s ops = true →
      (run P s ops).m_advertising = true → (run P s ops).m_advertisement_is_init = true := by
  induction ops with
  | nil => intro s hinv _; exact hinv
  | cons op ops ih =>
    intro s hinv hg
    simp only [start_when_initialized, Bool.and_eq_true, Bool.or_eq_true,
      Bool.not_eq_true'] at hg
    have hstart : op.is_start = true → s.m_advertisement_is_init = true := by
      intro h
      rcases hg.1 with h0 | h1
      · rw [h] at h0; exact absurd h0 (by decide)
      · exact h1
    exact ih (step P s op) (step_keeps_flags P s op hinv hstart) hg.2

/-- Counterexample to C14 as stated: one call of `start` on the start-up state,
accepted by the stack, leaves the advertising flag set and the initialised flag
clear. -/
theorem C14_start_uninitialized_counterexample :
    (run example_platform initial_state [Op.start ⟨NRF_SUCCESS, 0⟩ NRF_SUCCESS]).m_advertising =
      true ∧
    (run example_platform initial_state
      [Op.start ⟨NRF_SUCCESS, 0⟩ NRF_SUCCESS]).m_advertisement_is_init = false := by
  decide

/-- Claim C14, amended: in every state reached from the start-up state by a
sequence of calls of the functions of the file, with any stack results, in
which `start` is only called while the initialised flag is set, the advertising
flag implies the initialised flag. -/
theorem C14_advertising_implies_initialized (P : Platform) (ops : List Op)
    (h : start_when_initialized P initial_state ops = true) :
    (run P initial_state ops).m_advertising = true →
      (run P initial_state ops).m_advertisement_is_init = true :=
  run_keeps_flags P ops initial_state (fun h0 => absurd h0 (by decide)) h

/-- Witness of the amended C14: init, start, a payload update, a stop that
fails, uninit and a second init. -/
theorem C14_advertising_implies_initialized_witness :
    start_when_initialized example_platform initial_state
      [Op.init 1 0, Op.start ⟨0, 0⟩ 0, Op.data_set (some [1, 2]) 2 ⟨0, 0⟩, Op.stop 8,
        Op.uninit 1 0 0, Op.init 1 0] = true ∧
    ((run example_platform initial_state
      [Op.init 1 0, Op.start ⟨0, 0⟩ 0, Op.data_set (some [1, 2]) 2 ⟨0, 0⟩, Op.stop 8,
        Op.uninit 1 0 0, Op.init 1 0]).m_advertising = true →
    (run example_platform initial_state
      [Op.init 1 0, Op.start ⟨0, 0⟩ 0, Op.data_set (some [1, 2]) 2 ⟨0, 0⟩, Op.stop 8,
        Op.uninit 1 0 0, Op.init 1 0]).m_advertisement_is_init = true) :=
  ⟨by decide, C14_advertising_implies_initialized example_platform _ (by decide)⟩

end Ble4Adv
